import Mathlib

/-!
# DX11-Engine: TexturingApplication

A shallow embedding of `src/TexturingApplication.cpp`.

* COM objects are natural-number handles; a null `ComPtr` is `none`.
* The driver side (DXGI / D3D11 / DirectXTex / FreeImage) is not part of the
  repository.  Whether one of its calls succeeds is read from an environment
  record (`SwapResEnv`, `ResizeEnv`, `InitEnv`, `LoadEnv`, ...); what a successful
  call hands back is a fresh object whose reference count is one.
* Every member function threads a `World`: the data members of the application
  object, the reference-count table, the swapchain buffers, and the list of
  calls made so far (oldest first).
* Calling through a null pointer (`p->f()` with `p == nullptr`) and a failed
  `assert` do not return; they are the two `Fault`s.
-/

namespace DX11Engine

/-- Identity of a COM object. -/
abbrev Handle := Nat

/-- The `DXGI_FORMAT` values that occur in the source. -/
inductive DXGI_FORMAT where
  | R8_UNORM
  | R8G8_UNORM
  | R8G8B8A8_UNORM
  | B8G8R8A8_UNORM
  deriving DecidableEq, Repr

/-- Conversion of an `int32_t` argument to a `UINT` parameter. -/
def toUINT (x : Int) : Nat := (x % 4294967296).toNat

/-- The data members of `TexturingApplication` that hold a `WRL::ComPtr`. -/
inductive Member where
  | dxgiFactory
  | device
  | debug
  | deviceContext
  | swapChain
  | renderTarget
  | triangleVertices
  | linearSamplerState
  | rasterState
  | textureSrv
  | fallbackTextureSrv
  deriving DecidableEq, Repr

/-- Names attached with `SetPrivateData(WKPDID_D3DDebugObjectName, ...)`. -/
inductive DebugName where
  | DEV_Main
  | CTX_Main
  deriving DecidableEq, Repr

/-- `VertexType` of the engine headers; only `PositionColorUv` is used here. -/
inductive VertexType where
  | PositionColorUv
  deriving DecidableEq, Repr

/-- Primitive topologies; `Render` sets the triangle list. -/
inductive Topology where
  | TRIANGLELIST
  deriving DecidableEq, Repr

/-- A decimal floating literal of the source, `num / den` before rounding to `float`. -/
structure FloatLit where
  num : Nat
  den : Nat
  deriving DecidableEq, Repr

/-- `D3D11_VIEWPORT`; width and height are the integers that `static_cast<float>` receives. -/
structure Viewport where
  topLeftX : FloatLit
  topLeftY : FloatLit
  width : Int
  height : Int
  minDepth : FloatLit
  maxDepth : FloatLit
  deriving DecidableEq, Repr

/-- The fields of `DXGI_SWAP_CHAIN_DESC1` that `Initialize` fills in. -/
structure SwapChainDesc where
  width : Nat
  height : Nat
  format : DXGI_FORMAT
  sampleCount : Nat
  sampleQuality : Nat
  bufferCount : Nat
  windowed : Bool
  deriving DecidableEq, Repr

/-- Pixel storage of a FreeImage bitmap, by how it was obtained. -/
inductive PixelData where
  | decoded
  | flipped (p : PixelData)
  | converted32 (p : PixelData)
  deriving DecidableEq, Repr

/-- What `CreateTextureView` passes to `ID3D11Device::CreateTexture2D`:
the `D3D11_TEXTURE2D_DESC` fields it sets and the `D3D11_SUBRESOURCE_DATA`. -/
structure TextureRequest where
  format : DXGI_FORMAT
  width : Nat
  height : Nat
  arraySize : Nat
  mipLevels : Nat
  sampleCount : Nat
  sysMem : Option PixelData
  sysMemPitch : Nat
  deriving DecidableEq, Repr

/-- Texture files named in `Load`. -/
inductive Asset where
  | defaultPng
  | frogeDds
  deriving DecidableEq, Repr

/-- One call made by the application, with its arguments and, for a creation call, its result
(`none` for a failed call). -/
inductive Call where
  | applicationInitialize
  | applicationOnResize (width height : Int)
  | freeImageInitialise
  | createDXGIFactory1 (result : Option Handle)
  | d3d11CreateDevice (flags : Nat) (result : Option (Handle × Handle))
  | queryDebug (device : Handle) (ok : Bool)
  | setPrivateData (object : Handle) (name : DebugName)
  | createSwapChainForHwnd (factory device : Handle) (desc : SwapChainDesc) (result : Option Handle)
  | getBuffer (swapChain : Handle) (index : Nat) (ok : Bool)
  | createRenderTargetView (device : Handle) (size : Nat × Nat) (result : Option Handle)
  | resizeBuffers (swapChain : Handle) (bufferCount width height : Nat) (format : DXGI_FORMAT)
      (flags : Nat) (ok : Bool)
  | comReset (m : Member) (held : Option Handle)
  | comReleaseAndGetAddressOf (m : Member) (held : Option Handle)
  | comDestructor (m : Member) (held : Option Handle)
  | shaderCollectionCreate (device : Option Handle) (resources : List Handle)
  | shaderCollectionDestroy (resources : List Handle)
  | shaderCollectionApplyToContext (context : Handle)
  | reportLiveDeviceObjects (debug : Handle)
  | createBuffer (device : Handle) (byteWidth : Nat) (result : Option Handle)
  | createSamplerState (device : Handle) (result : Option Handle)
  | loadFromDDSFile (a : Asset) (ok : Bool)
  | ddsCreateTexture (device : Option Handle) (result : Option Handle)
  | ddsCreateShaderResourceView (device : Option Handle) (result : Option Handle)
  | readFile (a : Asset) (ok : Bool)
  | createTexture2D (device : Handle) (req : TextureRequest) (result : Option Handle)
  | createShaderResourceView (device : Handle) (texture : Handle) (format : DXGI_FORMAT)
      (result : Option Handle)
  | flush (context : Handle)
  | omSetRenderTargets (context : Handle) (count : Nat) (view : Option Handle)
  | clearRenderTargetView (context : Handle) (view : Option Handle) (color : List FloatLit)
  | iaSetPrimitiveTopology (context : Handle) (t : Topology)
  | iaSetVertexBuffers (context : Handle) (startSlot count : Nat) (buffer : Option Handle)
      (stride offset : Nat)
  | rsSetViewports (context : Handle) (count : Nat) (v : Viewport)
  | rsSetState (context : Handle) (state : Option Handle)
  | psSetShaderResources (context : Handle) (startSlot count : Nat) (view : Option Handle)
  | psSetSamplers (context : Handle) (startSlot count : Nat) (sampler : Option Handle)
  | draw (context : Handle) (vertexCount start : Nat)
  | present (swapChain : Handle) (syncInterval flags : Nat)
  deriving DecidableEq, Repr

/-- Reference counts of the COM objects handed out so far. -/
structure Com where
  next : Handle
  refs : Handle → Nat

/-- `IUnknown::AddRef`. -/
def Com.AddRef (c : Com) (h : Handle) : Com :=
  { c with refs := fun k => if k = h then c.refs k + 1 else c.refs k }

/-- `IUnknown::Release`. -/
def Com.Release (c : Com) (h : Handle) : Com :=
  { c with refs := fun k => if k = h then c.refs k - 1 else c.refs k }

/-- A successful creation call: a new object, returned with one reference. -/
def Com.create (c : Com) : Com :=
  { next := c.next + 1, refs := fun k => if k = c.next then 1 else c.refs k }

/-- `ComPtr::InternalRelease`: releases the held object, if there is one. -/
def ComPtr.InternalRelease (p : Option Handle) (c : Com) : Com :=
  match p with
  | none => c
  | some h => c.Release h

/-- `ComPtr::InternalAddRef`: adds a reference to the held object, if there is one. -/
def ComPtr.InternalAddRef (p : Option Handle) (c : Com) : Com :=
  match p with
  | none => c
  | some h => c.AddRef h

/-- Modelled from the spec: ShaderCollection, declared in ShaderCollection.hpp, which is not
among the sources. It bundles the compiled vertex shader, pixel shader and input layout.
A collection whose creation failed holds no resources. -/
structure ShaderCollection where
  resources : List Handle
  deriving DecidableEq, Repr

/-- The application object together with the driver state it talks to.
`layoutByteSize` is `ShaderCollection::GetLayoutByteSize`, whose definition is not among the
sources: it is a parameter. `backBufferSize` is the size of the swapchain buffers, `viewSize`
the size of the back buffer under each render-target view, `liveReport` what the last
`ReportLiveDeviceObjects` listed (objects with outstanding references, with their counts). -/
structure World where
  dxgiFactory : Option Handle
  device : Option Handle
  debug : Option Handle
  deviceContext : Option Handle
  swapChain : Option Handle
  renderTarget : Option Handle
  triangleVertices : Option Handle
  linearSamplerState : Option Handle
  rasterState : Option Handle
  textureSrv : Option Handle
  fallbackTextureSrv : Option Handle
  shaderCollection : ShaderCollection
  layoutByteSize : VertexType → Nat
  windowWidth : Int
  windowHeight : Int
  com : Com
  backBufferSize : Nat × Nat
  viewSize : Handle → Option (Nat × Nat)
  calls : List Call
  cerr : List String
  liveReport : Option (List (Handle × Nat))

/-- The application object as constructed, before `Initialize`: every `ComPtr` is null. -/
def World.fresh (width height : Int) (layout : VertexType → Nat) : World :=
  { dxgiFactory := none, device := none, debug := none, deviceContext := none,
    swapChain := none, renderTarget := none, triangleVertices := none,
    linearSamplerState := none, rasterState := none, textureSrv := none,
    fallbackTextureSrv := none, shaderCollection := { resources := [] },
    layoutByteSize := layout, windowWidth := width, windowHeight := height,
    com := { next := 0, refs := fun _ => 0 }, backBufferSize := (0, 0),
    viewSize := fun _ => none, calls := [], cerr := [], liveReport := none }

/-- Reads a `ComPtr` member. -/
def World.get (w : World) : Member → Option Handle
  | .dxgiFactory => w.dxgiFactory
  | .device => w.device
  | .debug => w.debug
  | .deviceContext => w.deviceContext
  | .swapChain => w.swapChain
  | .renderTarget => w.renderTarget
  | .triangleVertices => w.triangleVertices
  | .linearSamplerState => w.linearSamplerState
  | .rasterState => w.rasterState
  | .textureSrv => w.textureSrv
  | .fallbackTextureSrv => w.fallbackTextureSrv

/-- Overwrites the raw pointer inside a `ComPtr` member (no reference counting). -/
def World.set (w : World) (m : Member) (v : Option Handle) : World :=
  match m with
  | .dxgiFactory => { w with dxgiFactory := v }
  | .device => { w with device := v }
  | .debug => { w with debug := v }
  | .deviceContext => { w with deviceContext := v }
  | .swapChain => { w with swapChain := v }
  | .renderTarget => { w with renderTarget := v }
  | .triangleVertices => { w with triangleVertices := v }
  | .linearSamplerState => { w with linearSamplerState := v }
  | .rasterState => { w with rasterState := v }
  | .textureSrv => { w with textureSrv := v }
  | .fallbackTextureSrv => { w with fallbackTextureSrv := v }

/-- Appends a call to the history. -/
def World.emit (w : World) (c : Call) : World :=
  { w with calls := w.calls ++ [c] }

/-- Writes a line to `std::cerr`. -/
def World.log (w : World) (msg : String) : World :=
  { w with cerr := w.cerr ++ [msg] }

/-- `m.Reset()`: releases the held object, if any, and nulls the member. -/
def World.Reset (w : World) (m : Member) : World :=
  ({ w with
      com := ComPtr.InternalRelease (w.get m) w.com
      calls := w.calls ++ [Call.comReset m (w.get m)] }).set m none

/-- `&m` on a `ComPtr` member, which is `ReleaseAndGetAddressOf`: the held object, if any, is
released and the member nulled before the callee writes to it. -/
def World.addressOf (w : World) (m : Member) : World :=
  ({ w with
      com := ComPtr.InternalRelease (w.get m) w.com
      calls := w.calls ++ [Call.comReleaseAndGetAddressOf m (w.get m)] }).set m none

/-- A successful creation call writes a new object, holding one reference, through the
address obtained from `&m`. -/
def World.created (w : World) (m : Member) : World :=
  ({ w with com := w.com.create }).set m (some w.com.next)

/-- Ways in which a member function does not return. -/
inductive Fault where
  | nullDereference
  | assertionFailed
  deriving DecidableEq, Repr

/-- Result of running a member function: it returns a value, or it faults. -/
inductive Outcome (α : Type) where
  | returned (value : α) (w : World)
  | faulted (f : Fault) (w : World)

/-- The world in which the run ended. -/
def Outcome.world {α : Type} : Outcome α → World
  | .returned _ w => w
  | .faulted _ w => w

/-- The value returned, if the run returned. -/
def Outcome.value? {α : Type} : Outcome α → Option α
  | .returned a _ => some a
  | .faulted _ _ => none

/-- The fault, if the run faulted. -/
def Outcome.fault? {α : Type} : Outcome α → Option Fault
  | .returned _ _ => none
  | .faulted f _ => some f

/-- Build configuration: whether `NDEBUG` is defined. -/
structure Build where
  ndebug : Bool
  deriving DecidableEq, Repr

/-- Outcomes of the two driver calls in `CreateSwapchainResources`. -/
structure SwapResEnv where
  getBuffer : Bool
  createRenderTargetView : Bool
  deriving DecidableEq, Repr

/-- Outcomes of the driver calls in one `OnResize`. -/
structure ResizeEnv where
  resizeBuffers : Bool
  swapRes : SwapResEnv
  deriving DecidableEq, Repr

/-- `TexturingApplication::CreateSwapchainResources` (lines 339-360). -/
def CreateSwapchainResources (env : SwapResEnv) (w : World) : Outcome Bool :=
  match w.swapChain with
  | none => .faulted .nullDereference w
  | some sc =>
    if env.getBuffer = false then
      .returned false
        ((w.emit (.getBuffer sc 0 false)).log "D3D11: Failed to get back buffer from swapchain\n")
    else
      let w1 := w.emit (.getBuffer sc 0 true)
      match w1.device with
      | none => .faulted .nullDereference w1
      | some dev =>
        let w2 := w1.addressOf .renderTarget
        if env.createRenderTargetView = false then
          .returned false
            ((w2.emit (.createRenderTargetView dev w2.backBufferSize none)).log
              "D3D11: Failed to create rendertarget view from back buffer\n")
        else
          let v := w2.com.next
          .returned true
            ({ w2 with
                viewSize := fun k => if k = v then some w2.backBufferSize else w2.viewSize k
                calls := w2.calls ++ [Call.createRenderTargetView dev w2.backBufferSize (some v)]
              }.created .renderTarget)

/-- `TexturingApplication::DestroySwapchainResources` (lines 362-365). -/
def DestroySwapchainResources (w : World) : World :=
  w.Reset .renderTarget

/-- Modelled from the spec: Application::OnResize of the window shell, which is not among the
sources; the shell keeps the current client width and height. -/
def Application_OnResize (width height : Int) (w : World) : World :=
  { w with
    windowWidth := width
    windowHeight := height
    calls := w.calls ++ [Call.applicationOnResize width height] }

/-- Size of the swapchain buffers after a successful `CreateSwapChainForHwnd` or
`ResizeBuffers` asked for `width` x `height`: a zero dimension stands for the client area of
the window. -/
def resizedBuffers (w : World) (width height : Nat) : Nat × Nat :=
  (if width = 0 then toUINT w.windowWidth else width,
   if height = 0 then toUINT w.windowHeight else height)

/-- `TexturingApplication::OnResize` (lines 367-388). -/
def OnResize (env : ResizeEnv) (width height : Int) (w : World) : Outcome Unit :=
  let w0 := Application_OnResize width height w
  match w0.deviceContext with
  | none => .faulted .nullDereference w0
  | some ctx =>
    let w1 := DestroySwapchainResources (w0.emit (.flush ctx))
    match w1.swapChain with
    | none => .faulted .nullDereference w1
    | some sc =>
      if env.resizeBuffers = false then
        .returned ()
          ((w1.emit (.resizeBuffers sc 0 (toUINT width) (toUINT height) .B8G8R8A8_UNORM 0
            false)).log "D3D11: Failed to recreate swapchain buffers\n")
      else
        let w2 := { w1 with
          backBufferSize := resizedBuffers w1 (toUINT width) (toUINT height)
          calls := w1.calls ++
            [Call.resizeBuffers sc 0 (toUINT width) (toUINT height) .B8G8R8A8_UNORM 0 true] }
        match CreateSwapchainResources env.swapRes w2 with
        | .returned _ w3 => .returned () w3
        | .faulted f w3 => .faulted f w3

/-- Outcomes of the shell and driver calls in `Initialize`. -/
structure InitEnv where
  applicationInitialize : Bool
  createDXGIFactory1 : Bool
  d3d11CreateDevice : Bool
  queryDebug : Bool
  createSwapChainForHwnd : Bool
  swapRes : SwapResEnv
  deriving DecidableEq, Repr

/-- `deviceFlags` of `Initialize`: `D3D11_CREATE_DEVICE_DEBUG` (2) unless `NDEBUG`. -/
def deviceFlags (b : Build) : Nat :=
  if b.ndebug then 0 else 2

/-- The `swapChainDescriptor` and `swapChainFullscreenDescriptor` of `Initialize`. -/
def swapChainDescriptor (w : World) : SwapChainDesc :=
  { width := toUINT w.windowWidth
    height := toUINT w.windowHeight
    format := .B8G8R8A8_UNORM
    sampleCount := 1
    sampleQuality := 0
    bufferCount := 2
    windowed := true }

/-- Lines 98-135 of `Initialize`, after device, context and (in validation builds) the debug
interface exist. `ctx` is the local `deviceContext`, released when the function returns. -/
def InitializeSwapchain (env : InitEnv) (dev ctx : Handle) (w : World) : Outcome Bool :=
  -- `_deviceContext = deviceContext;` copies: AddRef the new, Release the old
  let w1 := ({ w with
    com := ComPtr.InternalRelease w.deviceContext (w.com.AddRef ctx) }).set
      .deviceContext (some ctx)
  let w2 := (w1.emit (.setPrivateData dev .DEV_Main)).emit (.setPrivateData ctx .CTX_Main)
  match w2.dxgiFactory with
  | none => .faulted .nullDereference { w2 with com := w2.com.Release ctx }
  | some factory =>
    let w3 := w2.addressOf .swapChain
    if env.createSwapChainForHwnd = false then
      .returned false
        { ((w3.emit (.createSwapChainForHwnd factory dev (swapChainDescriptor w3) none)).log
            "DXGI: Failed to create SwapChain\n") with com := w3.com.Release ctx }
    else
      let w4 := { w3 with
        backBufferSize :=
          resizedBuffers w3 (swapChainDescriptor w3).width (swapChainDescriptor w3).height
        calls := w3.calls ++
          [Call.createSwapChainForHwnd factory dev (swapChainDescriptor w3) (some w3.com.next)]
        }.created .swapChain
      -- `CreateSwapchainResources();` the returned bool is dropped
      match CreateSwapchainResources env.swapRes w4 with
      | .faulted f w5 => .faulted f { w5 with com := w5.com.Release ctx }
      | .returned _ w5 =>
        .returned true { (w5.emit .freeImageInitialise) with com := w5.com.Release ctx }

/-- `TexturingApplication::Initialize` (lines 54-135). -/
def Initialize (b : Build) (env : InitEnv) (w : World) : Outcome Bool :=
  let w0 := w.emit .applicationInitialize
  if env.applicationInitialize = false then .returned false w0
  else
    let w1 := w0.addressOf .dxgiFactory
    if env.createDXGIFactory1 = false then
      .returned false ((w1.emit (.createDXGIFactory1 none)).log "DXGI: Failed to create factory\n")
    else
      let w2 := (w1.emit (.createDXGIFactory1 (some w1.com.next))).created .dxgiFactory
      let w3 := w2.addressOf .device
      if env.d3d11CreateDevice = false then
        .returned false
          ((w3.emit (.d3d11CreateDevice (deviceFlags b) none)).log
            "D3D11: Failed to create Device and Device Context\n")
      else
        let dev := w3.com.next
        let ctx := dev + 1
        -- the device goes to `_device`, the context to the local `deviceContext`
        let w4 := { (w3.emit (.d3d11CreateDevice (deviceFlags b) (some (dev, ctx)))).created
          .device with com := w3.com.create.create }
        if b.ndebug then InitializeSwapchain env dev ctx w4
        else
          -- `_device.As(&_debug)`: QueryInterface on the device
          let w5 := w4.addressOf .debug
          if env.queryDebug = false then
            .returned false
              { ((w5.emit (.queryDebug dev false)).log
                  "D3D11: Failed to get the debug layer from the device\n") with
                com := w5.com.Release ctx }
          else
            InitializeSwapchain env dev ctx
              (({ w5 with com := w5.com.AddRef dev }.emit (.queryDebug dev true)).set .debug
                (some dev))

/-- A decoded FreeImage bitmap: the width, height and bits per pixel that FreeImage reports for
it (each an `unsigned`), and its pixel storage. -/
structure Bitmap where
  width : Nat
  height : Nat
  bpp : Nat
  pixels : PixelData
  deriving DecidableEq, Repr

/-- `FreeImage_FlipVertical`; a null bitmap is left alone. -/
def FreeImage_FlipVertical (image : Option Bitmap) : Option Bitmap :=
  image.map fun b => { b with pixels := .flipped b.pixels }

/-- `FreeImage_GetWidth`; 0 for a null bitmap. -/
def FreeImage_GetWidth (image : Option Bitmap) : Nat :=
  match image with
  | none => 0
  | some b => b.width

/-- `FreeImage_GetHeight`; 0 for a null bitmap. -/
def FreeImage_GetHeight (image : Option Bitmap) : Nat :=
  match image with
  | none => 0
  | some b => b.height

/-- `FreeImage_GetBPP`; 0 for a null bitmap. -/
def FreeImage_GetBPP (image : Option Bitmap) : Nat :=
  match image with
  | none => 0
  | some b => b.bpp

/-- `FreeImage_ConvertTo32Bits`: a new bitmap of the same size with 32 bits per pixel. -/
def FreeImage_ConvertTo32Bits (image : Option Bitmap) : Option Bitmap :=
  image.map fun b => { b with bpp := 32, pixels := .converted32 b.pixels }

/-- `FreeImage_GetBits`: the pixel storage; null for a null bitmap. -/
def FreeImage_GetBits (image : Option Bitmap) : Option PixelData :=
  image.map fun b => b.pixels

/-- The `switch (textureBPP)` of `CreateTextureView` (lines 223-250): the format chosen,
the value of `textureBPP` and the bitmap `image` points to afterwards; `none` is the
`default:` branch, which returns `nullptr`. -/
def selectFormat (textureBPP : Nat) (image : Option Bitmap) :
    Option (DXGI_FORMAT × Nat × Option Bitmap) :=
  if textureBPP = 8 then some (.R8_UNORM, textureBPP, image)
  else if textureBPP = 16 then some (.R8G8_UNORM, textureBPP, image)
  else if textureBPP = 24 then some (.R8G8B8A8_UNORM, 32, FreeImage_ConvertTo32Bits image)
  else if textureBPP = 32 then some (.R8G8B8A8_UNORM, textureBPP, image)
  else none

/-- Lines 215-262 of `CreateTextureView`: from the decoded, flipped bitmap to the arguments
of `CreateTexture2D`; `none` when the function returns `nullptr` at the `default:` branch.
`SysMemPitch` is computed in 32-bit unsigned arithmetic. -/
def textureRequest (image : Option Bitmap) : Option TextureRequest :=
  let textureWidth := FreeImage_GetWidth image
  let textureHeight := FreeImage_GetHeight image
  match selectFormat (FreeImage_GetBPP image) image with
  | none => none
  | some (textureFormat, textureBPP, image1) =>
    some
      { format := textureFormat
        width := textureWidth
        height := textureHeight
        arraySize := 1
        mipLevels := 1
        sampleCount := 1
        sysMem := FreeImage_GetBits image1
        sysMemPitch := ((textureBPP / 8) * textureWidth) % 4294967296 }

/-- Outcomes of the file, FreeImage and driver calls in `CreateTextureView`; `image` is what
`FreeImage_LoadFromMemory` returns. -/
structure TextureEnv where
  readFile : Bool
  fileTypeKnown : Bool
  image : Option Bitmap
  createTexture2D : Bool
  createShaderResourceView : Bool
  deriving DecidableEq, Repr

/-- `CreateTextureView` (lines 178-283). The view is created with one reference and
`return srv;` builds the returned `ComPtr` from the raw pointer, which adds one. -/
def CreateTextureView (env : TextureEnv) (device : Option Handle) (path : Asset) (w : World) :
    Outcome (Option Handle) :=
  if env.readFile = false then .returned none (w.emit (.readFile path false))
  else
    let w1 := w.emit (.readFile path true)
    if env.fileTypeKnown = false then .returned none w1
    else
      match textureRequest (FreeImage_FlipVertical env.image) with
      | none => .returned none w1
      | some req =>
        match device with
        | none => .faulted .nullDereference w1
        | some dev =>
          if env.createTexture2D = false then
            .returned none (w1.emit (.createTexture2D dev req none))
          else
            let texture := w1.com.next
            let w2 := { w1 with
              com := w1.com.create
              calls := w1.calls ++ [Call.createTexture2D dev req (some texture)] }
            if env.createShaderResourceView = false then
              .returned none
                { (w2.emit (.createShaderResourceView dev texture req.format none)) with
                  com := w2.com.Release texture }
            else
              let srv := w2.com.next
              .returned (some srv)
                { w2 with
                  com := ((w2.com.create).AddRef srv).Release texture
                  calls := w2.calls ++
                    [Call.createShaderResourceView dev texture req.format (some srv)] }

/-- Outcomes of the DirectXTex calls in `CreateTextureViewFromDDS`. -/
structure DdsEnv where
  loadFromDDSFile : Bool
  createTexture : Bool
  createShaderResourceView : Bool
  deriving DecidableEq, Repr

/-- `CreateTextureViewFromDDS` (lines 137-175). DirectXTex rejects a null device. The view
is created with one reference and `return srv;` builds the returned `ComPtr` from the raw
pointer, which adds one. -/
def CreateTextureViewFromDDS (env : DdsEnv) (device : Option Handle) (path : Asset)
    (w : World) : Option Handle × World :=
  if env.loadFromDDSFile = false then
    (none, (w.emit (.loadFromDDSFile path false)).log "DXTEX: Failed to load image\n")
  else
    let w1 := w.emit (.loadFromDDSFile path true)
    if (env.createTexture && device.isSome) = false then
      (none, (w1.emit (.ddsCreateTexture device none)).log
        "DXTEX: Failed to create texture out of image\n")
    else
      let texture := w1.com.next
      let w2 := { w1 with
        com := w1.com.create
        calls := w1.calls ++ [Call.ddsCreateTexture device (some texture)] }
      if env.createShaderResourceView = false then
        (none,
          { ((w2.emit (.ddsCreateShaderResourceView device none)).log
              "DXTEX: Failed to create shader resource view out of texture\n") with
            com := w2.com.Release texture })
      else
        let srv := w2.com.next
        (some srv,
          { w2 with
            com := ((w2.com.create).AddRef srv).Release texture
            calls := w2.calls ++ [Call.ddsCreateShaderResourceView device (some srv)] })

/-- Outcomes of the calls in `Load`. -/
structure LoadEnv where
  createShaderCollection : Bool
  createBuffer : Bool
  fallback : TextureEnv
  dds : DdsEnv
  createSamplerState : Bool
  deriving DecidableEq, Repr

/-- Modelled from the spec: ShaderCollection::CreateShaderCollection, which is not among the
sources. On success the collection holds three new objects (vertex shader, pixel shader,
input layout); on failure it holds none. It returns the collection by value and reports
nothing else to its caller. -/
def CreateShaderCollection (ok : Bool) (device : Option Handle) (w : World) :
    ShaderCollection × World :=
  if (ok && device.isSome) = false then
    ({ resources := [] }, w.emit (.shaderCollectionCreate device []))
  else
    let rs := [w.com.next, w.com.next + 1, w.com.next + 2]
    ({ resources := rs },
      { w with
        com := w.com.create.create.create
        calls := w.calls ++ [Call.shaderCollectionCreate device rs] })

/-- Modelled from the spec: ShaderCollection::Destroy, which is not among the sources; it
releases the resources of the collection. -/
def ShaderCollection_Destroy (w : World) : World :=
  { w with
    com := w.shaderCollection.resources.foldl (fun c h => c.Release h) w.com
    shaderCollection := { resources := [] }
    calls := w.calls ++ [Call.shaderCollectionDestroy w.shaderCollection.resources] }

/-- Size of one `VertexPositionColorUv` record: a position and a colour of three floats each
and a UV of two, as the initialisers in `Load` show. -/
def sizeofVertexPositionColorUv : Nat := (3 + 3 + 2) * 4

/-- Lines 318-336 of `Load`: the primary texture, the fallback substitution and the sampler
state. -/
def LoadTextureAndSampler (env : LoadEnv) (dev : Handle) (w : World) : Outcome Bool :=
  -- `_textureSrv = CreateTextureViewFromDDS(...)` moves the returned pointer in
  let r := CreateTextureViewFromDDS env.dds w.device .frogeDds w
  let w1 := ({ r.2 with com := ComPtr.InternalRelease r.2.textureSrv r.2.com }).set .textureSrv r.1
  -- `_textureSrv = _fallbackTextureSrv;` copies: AddRef the new, Release the old
  let w2 :=
    if w1.textureSrv = none then
      ({ w1 with
          com := ComPtr.InternalRelease w1.textureSrv
            (ComPtr.InternalAddRef w1.fallbackTextureSrv w1.com) }).set
        .textureSrv w1.fallbackTextureSrv
    else w1
  let w3 := w2.addressOf .linearSamplerState
  if env.createSamplerState = false then
    .returned false
      ((w3.emit (.createSamplerState dev none)).log
        "D3D11: Failed to create linear sampler state\n")
  else
    .returned true ((w3.emit (.createSamplerState dev (some w3.com.next))).created
      .linearSamplerState)

/-- `TexturingApplication::Load` (lines 285-337). The value returned by
`CreateShaderCollection` is stored and not examined. `assert` is compiled out when `NDEBUG`
is defined and aborts the process otherwise. -/
def Load (b : Build) (env : LoadEnv) (w : World) : Outcome Bool :=
  let sc := CreateShaderCollection env.createShaderCollection w.device w
  let w0 := { sc.2 with shaderCollection := sc.1 }
  match w0.device with
  | none => .faulted .nullDereference w0
  | some dev =>
    let w1 := w0.addressOf .triangleVertices
    if env.createBuffer = false then
      .returned false
        ((w1.emit (.createBuffer dev (3 * sizeofVertexPositionColorUv) none)).log
          "D3D11: Failed to create triangle vertex buffer\n")
    else
      let w2 := (w1.emit (.createBuffer dev (3 * sizeofVertexPositionColorUv)
        (some w1.com.next))).created .triangleVertices
      -- `_fallbackTextureSrv = CreateTextureView(...)` moves the returned pointer in
      match CreateTextureView env.fallback w2.device .defaultPng w2 with
      | .faulted f w3 => .faulted f w3
      | .returned fb w3 =>
        let w4 := ({ w3 with
          com := ComPtr.InternalRelease w3.fallbackTextureSrv w3.com }).set .fallbackTextureSrv fb
        if b.ndebug = false && w4.fallbackTextureSrv = none then .faulted .assertionFailed w4
        else LoadTextureAndSampler env dev w4

/-- The `clearColor` array of `Render`. -/
def clearColor : List FloatLit :=
  [{ num := 1, den := 10 }, { num := 1, den := 10 }, { num := 1, den := 10 },
   { num := 1, den := 1 }]

/-- The `viewport` of `Render`. -/
def viewport (w : World) : Viewport :=
  { topLeftX := { num := 0, den := 1 }
    topLeftY := { num := 0, den := 1 }
    width := w.windowWidth
    height := w.windowHeight
    minDepth := { num := 0, den := 1 }
    maxDepth := { num := 1, den := 1 } }

/-- `TexturingApplication::Render` (lines 395-438). No call result is examined. The call
`_triangleVertices->GetDesc(&description)` fills a local that is not read again; it goes
through `_triangleVertices` and changes nothing. -/
def Render (w : World) : Outcome Unit :=
  match w.deviceContext with
  | none => .faulted .nullDereference w
  | some ctx =>
    let w1 := (((w.emit (.omSetRenderTargets ctx 1 none)).emit
      (.clearRenderTargetView ctx w.renderTarget clearColor)).emit
      (.omSetRenderTargets ctx 1 w.renderTarget)).emit (.iaSetPrimitiveTopology ctx .TRIANGLELIST)
    match w1.triangleVertices with
    | none => .faulted .nullDereference w1
    | some vb =>
      let stride := w1.layoutByteSize .PositionColorUv
      let w2 := ((((((w1.emit (.iaSetVertexBuffers ctx 0 1 (some vb) stride 0)).emit
        (.shaderCollectionApplyToContext ctx)).emit
        (.rsSetViewports ctx 1 (viewport w1))).emit
        (.rsSetState ctx w1.rasterState)).emit
        (.psSetShaderResources ctx 0 1 w1.textureSrv)).emit
        (.psSetSamplers ctx 0 1 w1.linearSamplerState)).emit (.draw ctx 3 0)
      match w2.swapChain with
      | none => .faulted .nullDereference w2
      | some sc => .returned () (w2.emit (.present sc 1 0))

/-- What `ID3D11Debug::ReportLiveDeviceObjects` lists: every object handed out so far that
still has outstanding references, with its count. -/
def liveObjects (c : Com) : List (Handle × Nat) :=
  ((List.range c.next).filter fun h => c.refs h ≠ 0).map fun h => (h, c.refs h)

/-- The body of `TexturingApplication::~TexturingApplication` (lines 35-52). -/
def destructorBody (b : Build) (w : World) : Outcome Unit :=
  match w.deviceContext with
  | none => .faulted .nullDereference w
  | some ctx =>
    let w1 := ((((w.emit (.flush ctx)).Reset .textureSrv).Reset .triangleVertices).Reset
      .linearSamplerState).Reset .rasterState
    let w2 := DestroySwapchainResources (ShaderCollection_Destroy w1)
    let w3 := ((w2.Reset .swapChain).Reset .dxgiFactory).Reset .deviceContext
    if b.ndebug then .returned () (w3.Reset .device)
    else
      match w3.debug with
      | none => .faulted .nullDereference w3
      | some dbg =>
        let w4 := { w3 with
          liveReport := some (liveObjects w3.com)
          calls := w3.calls ++ [Call.reportLiveDeviceObjects dbg] }
        .returned () ((w4.Reset .debug).Reset .device)

/-- After the body the destructors of the data members run; `~ComPtr` releases what the
member still holds. Every `ComPtr` member that the body reset is null by then and its
destructor does nothing; `_fallbackTextureSrv`, which the body never mentions, is the member
whose destructor can still release an object, and that release is the call recorded here. -/
def memberDestructors (w : World) : World :=
  ({ w with
      com := ComPtr.InternalRelease w.fallbackTextureSrv w.com
      calls := w.calls ++ [Call.comDestructor .fallbackTextureSrv w.fallbackTextureSrv] }).set
    .fallbackTextureSrv none

/-- The whole destructor `TexturingApplication::~TexturingApplication`: the body, then the
destructors of the members. -/
def destructor (b : Build) (w : World) : Outcome Unit :=
  match destructorBody b w with
  | .returned _ w1 => .returned () (memberDestructors w1)
  | .faulted f w1 => .faulted f w1

/-- A failed vertex-buffer creation: `CreateBuffer` was called and returned a failure. -/
def Call.isFailedBuffer : Call → Bool
  | .createBuffer _ _ none => true
  | _ => false

/-- A failed sampler-state creation: `CreateSamplerState` was called and returned a
failure. -/
def Call.isFailedSampler : Call → Bool
  | .createSamplerState _ none => true
  | _ => false

/-- The calls made between the world `w` and the later world `w1`. -/
def World.callsSince (w1 w : World) : List Call :=
  w1.calls.drop w.calls.length

/-- One resize event delivered by the window shell, with the outcomes of the driver calls
made while handling it. -/
structure ResizeRequest where
  env : ResizeEnv
  width : Int
  height : Int
  deriving DecidableEq, Repr

/-- Consecutive `OnResize` calls, one per request, in order. -/
def resizeAll : List ResizeRequest → World → Outcome Unit
  | [], w => .returned () w
  | r :: rs, w =>
    match OnResize r.env r.width r.height w with
    | .returned _ w1 => resizeAll rs w1
    | .faulted f w1 => .faulted f w1

/-- Bookkeeping of render-target views along a call history: the view that was created and
not yet released, and every view created so far. -/
structure ViewLedger where
  live : Option Handle
  created : List Handle
  deriving DecidableEq, Repr

/-- Releasing through `_renderTarget`: accepted when it releases the live view. -/
def ViewLedger.release (l : ViewLedger) (v : Handle) : Option ViewLedger :=
  if l.live = some v then some { l with live := none } else none

/-- One call checked against the ledger; `none` is a violation of the pairing:
a view created while another is live or under a handle used before, a release of
anything but the live view, or a `DestroySwapchainResources` that finds `_renderTarget`
null. -/
def ViewLedger.step (l : ViewLedger) (c : Call) : Option ViewLedger :=
  match c with
  | .createRenderTargetView _ _ (some v) =>
    if l.live = none ∧ v ∉ l.created then some { live := some v, created := v :: l.created }
    else none
  | .comReset .renderTarget (some v) => l.release v
  | .comReset .renderTarget none => none
  | .comReleaseAndGetAddressOf .renderTarget (some v) => l.release v
  | _ => some l

/-- The ledger at the end of a call history, if the history violates nothing. -/
def viewLedger (calls : List Call) : Option ViewLedger :=
  calls.foldlM ViewLedger.step { live := none, created := [] }

/-- The requests of the `CreateTexture2D` calls in a history, oldest first. -/
def createTexture2DRequests (calls : List Call) : List TextureRequest :=
  calls.filterMap fun c =>
    match c with
    | .createTexture2D _ req _ => some req
    | _ => none

/-- A world in which the swapchain side is set up and `_renderTarget` holds the view `v`:
context, swapchain and device exist, `v` has exactly one outstanding reference, the call
history pairs every release of a view with its creation, and every earlier view has no
reference left. -/
structure SwapReady (w : World) (v : Handle) : Prop where
  context : w.deviceContext ≠ none
  swapChain : w.swapChain ≠ none
  device : w.device ≠ none
  view : w.renderTarget = some v
  refs : w.com.refs v = 1
  ledger : ∃ l, viewLedger w.calls = some l ∧ l.live = some v ∧
    (∀ h ∈ l.created, h < w.com.next) ∧ (∀ h ∈ l.created, h ≠ v → w.com.refs h = 0)

/-! ## Sample runs -/

/-- Both driver calls of `CreateSwapchainResources` succeed. -/
def okSwapRes : SwapResEnv := { getBuffer := true, createRenderTargetView := true }

/-- Every call of one `OnResize` succeeds. -/
def okResize : ResizeEnv := { resizeBuffers := true, swapRes := okSwapRes }

/-- Every call of `Initialize` succeeds. -/
def okInitEnv : InitEnv :=
  { applicationInitialize := true, createDXGIFactory1 := true, d3d11CreateDevice := true,
    queryDebug := true, createSwapChainForHwnd := true, swapRes := okSwapRes }

/-- A 64 x 64 bitmap with 32 bits per pixel. -/
def sampleBitmap : Bitmap := { width := 64, height := 64, bpp := 32, pixels := .decoded }

/-- The fallback image is read, decoded and uploaded. -/
def okTextureEnv : TextureEnv :=
  { readFile := true, fileTypeKnown := true, image := some sampleBitmap,
    createTexture2D := true, createShaderResourceView := true }

/-- The fallback image file cannot be read. -/
def missingTextureEnv : TextureEnv :=
  { readFile := false, fileTypeKnown := false, image := none,
    createTexture2D := true, createShaderResourceView := true }

/-- The DDS file is loaded and its texture and view are created. -/
def okDdsEnv : DdsEnv :=
  { loadFromDDSFile := true, createTexture := true, createShaderResourceView := true }

/-- The DDS file cannot be loaded. -/
def missingDdsEnv : DdsEnv :=
  { loadFromDDSFile := false, createTexture := true, createShaderResourceView := true }

/-- Every call of `Load` succeeds. -/
def okLoadEnv : LoadEnv :=
  { createShaderCollection := true, createBuffer := true, fallback := okTextureEnv,
    dds := okDdsEnv, createSamplerState := true }

/-- A validation build (`NDEBUG` not defined). -/
def debugBuild : Build := { ndebug := false }

/-- A production build (`NDEBUG` defined). -/
def releaseBuild : Build := { ndebug := true }

/-- The application as constructed for an 800 x 600 window, with a 32-byte vertex layout. -/
def freshWorld : World := World.fresh 800 600 fun _ => 32

/-- After a fully successful `Initialize` in a validation build. -/
def startedWorld : World := (Initialize debugBuild okInitEnv freshWorld).world

/-- After a fully successful `Initialize` and `Load` in a validation build. -/
def loadedWorld : World := (Load debugBuild okLoadEnv startedWorld).world

/-- After a successful `Initialize` and a `Load` in which only the DDS file is missing. -/
def aliasedWorld : World :=
  (Load debugBuild { okLoadEnv with dds := missingDdsEnv } startedWorld).world

/-! ## Auxiliary facts -/

@[simp]
theorem Com.Release_next (c : Com) (h : Handle) : (c.Release h).next = c.next := rfl

@[simp]
theorem Com.AddRef_next (c : Com) (h : Handle) : (c.AddRef h).next = c.next := rfl

@[simp]
theorem Com.create_next (c : Com) : c.create.next = c.next + 1 := rfl

@[simp]
theorem ComPtr.InternalRelease_next (p : Option Handle) (c : Com) :
    (ComPtr.InternalRelease p c).next = c.next := by
  cases p <;> rfl

@[simp]
theorem ComPtr.InternalAddRef_next (p : Option Handle) (c : Com) :
    (ComPtr.InternalAddRef p c).next = c.next := by
  cases p <;> rfl

theorem toUINT_of_nonneg (x : Int) (h0 : 0 ≤ x) (h1 : x < 4294967296) :
    toUINT x = x.toNat := by
  unfold toUINT
  rw [Int.emod_eq_of_lt h0 h1]

/-! ## Render -/

/-- C5. In every state in which the pointers `Render` goes through (device context, vertex
buffer, swapchain) are set, one `Render` returns and appends exactly these twelve calls, in
this order, whatever the other members hold: unbind the render target, clear the view to the
fixed colour, bind the view, triangle-list topology, bind the vertex buffer with the stride
`GetLayoutByteSize(PositionColorUv)` and offset 0, apply the shader collection, viewport
(0, 0, window width, window height), rasterizer state, texture view at slot 0, sampler at
slot 0, `Draw(3, 0)`, `Present(1, 0)`. Nothing else of the world changes. -/
theorem Render_command_sequence (w : World) (ctx vb sc : Handle)
    (hctx : w.deviceContext = some ctx) (hvb : w.triangleVertices = some vb)
    (hsc : w.swapChain = some sc) :
    Render w = .returned ()
      { w with
        calls := w.calls ++
          [ Call.omSetRenderTargets ctx 1 none,
            Call.clearRenderTargetView ctx w.renderTarget
              [⟨1, 10⟩, ⟨1, 10⟩, ⟨1, 10⟩, ⟨1, 1⟩],
            Call.omSetRenderTargets ctx 1 w.renderTarget,
            Call.iaSetPrimitiveTopology ctx .TRIANGLELIST,
            Call.iaSetVertexBuffers ctx 0 1 (some vb) (w.layoutByteSize .PositionColorUv) 0,
            Call.shaderCollectionApplyToContext ctx,
            Call.rsSetViewports ctx 1
              { topLeftX := ⟨0, 1⟩, topLeftY := ⟨0, 1⟩, width := w.windowWidth,
                height := w.windowHeight, minDepth := ⟨0, 1⟩, maxDepth := ⟨1, 1⟩ },
            Call.rsSetState ctx w.rasterState,
            Call.psSetShaderResources ctx 0 1 w.textureSrv,
            Call.psSetSamplers ctx 0 1 w.linearSamplerState,
            Call.draw ctx 3 0,
            Call.present sc 1 0 ] } := by
  simp [Render, World.emit, hctx, hvb, hsc, clearColor, viewport]

/-- Witness for C5: the world after a successful `Initialize` and `Load`. -/
theorem Render_command_sequence_witness :
    loadedWorld.deviceContext = some 2 ∧ loadedWorld.triangleVertices = some 8 ∧
      loadedWorld.swapChain = some 3 ∧
      (Render loadedWorld).world.calls = loadedWorld.calls ++
        [ Call.omSetRenderTargets 2 1 none,
          Call.clearRenderTargetView 2 (some 4) [⟨1, 10⟩, ⟨1, 10⟩, ⟨1, 10⟩, ⟨1, 1⟩],
          Call.omSetRenderTargets 2 1 (some 4),
          Call.iaSetPrimitiveTopology 2 .TRIANGLELIST,
          Call.iaSetVertexBuffers 2 0 1 (some 8) 32 0,
          Call.shaderCollectionApplyToContext 2,
          Call.rsSetViewports 2 1
            { topLeftX := ⟨0, 1⟩, topLeftY := ⟨0, 1⟩, width := 800, height := 600,
              minDepth := ⟨0, 1⟩, maxDepth := ⟨1, 1⟩ },
          Call.rsSetState 2 none,
          Call.psSetShaderResources 2 0 1 (some 12),
          Call.psSetSamplers 2 0 1 (some 13),
          Call.draw 2 3 0,
          Call.present 3 1 0 ] :=
  ⟨rfl, rfl, rfl, by rw [Render_command_sequence loadedWorld 2 8 3 rfl rfl rfl]; rfl⟩

/-! ## OnResize -/

/-- C6. With context, swapchain and device set (as after `Initialize`), for every width and
height `OnResize` returns, and the calls it appends are, in order: the shell's `OnResize`,
`Flush`, the `Reset` of `_renderTarget` made by `DestroySwapchainResources`,
`ResizeBuffers(0, width, height, B8G8R8A8_UNORM, 0)` with the format of the swapchain
descriptor of `Initialize`, and then, only if `ResizeBuffers` succeeded, the calls of
`CreateSwapchainResources`. If `ResizeBuffers` fails nothing follows it and `_renderTarget`
stays null. Width and height reach `ResizeBuffers` converted to `UINT`, which leaves
non-negative values unchanged. -/
theorem OnResize_steps (env : ResizeEnv) (width height : Int) (w : World) (ctx sc dev : Handle)
    (hctx : w.deviceContext = some ctx) (hsc : w.swapChain = some sc)
    (hdev : w.device = some dev) :
    (OnResize env width height w).value? = some () ∧
    (OnResize env width height w).world.calls =
      w.calls ++
        [ Call.applicationOnResize width height,
          Call.flush ctx,
          Call.comReset .renderTarget w.renderTarget,
          Call.resizeBuffers sc 0 (toUINT width) (toUINT height) (swapChainDescriptor w).format 0
            env.resizeBuffers ] ++
        (if env.resizeBuffers = false then []
         else
          Call.getBuffer sc 0 env.swapRes.getBuffer ::
            (if env.swapRes.getBuffer = false then []
             else
              [ Call.comReleaseAndGetAddressOf .renderTarget none,
                Call.createRenderTargetView dev
                  (resizedBuffers (Application_OnResize width height w) (toUINT width)
                    (toUINT height))
                  (if env.swapRes.createRenderTargetView = false then none
                   else some w.com.next) ])) ∧
    (swapChainDescriptor w).format = .B8G8R8A8_UNORM ∧
    (env.resizeBuffers = false → (OnResize env width height w).world.renderTarget = none) ∧
    (0 ≤ width → width < 4294967296 → toUINT width = width.toNat) ∧
    (0 ≤ height → height < 4294967296 → toUINT height = height.toNat) := by
  refine ⟨?_, ?_, rfl, ?_, toUINT_of_nonneg width, toUINT_of_nonneg height⟩ <;>
    obtain ⟨rb, gb, cv⟩ := env <;>
    cases rb <;> cases gb <;> cases cv <;>
    simp [OnResize, Application_OnResize, DestroySwapchainResources, CreateSwapchainResources,
      World.Reset, World.addressOf, World.created, World.emit, World.log, World.set, World.get,
      Outcome.world, Outcome.value?, swapChainDescriptor, hctx, hsc, hdev, resizedBuffers]

/-- Witness for C6: a resize to 1024 x 768 after a successful `Initialize`. -/
theorem OnResize_steps_witness :
    startedWorld.deviceContext = some 2 ∧ startedWorld.swapChain = some 3 ∧
      startedWorld.device = some 1 ∧
      (OnResize okResize 1024 768 startedWorld).world.calls =
        startedWorld.calls ++
          [ Call.applicationOnResize 1024 768,
            Call.flush 2,
            Call.comReset .renderTarget (some 4),
            Call.resizeBuffers 3 0 1024 768 .B8G8R8A8_UNORM 0 true,
            Call.getBuffer 3 0 true,
            Call.comReleaseAndGetAddressOf .renderTarget none,
            Call.createRenderTargetView 1 (1024, 768) (some 5) ] :=
  ⟨rfl, rfl, rfl,
    (OnResize_steps okResize 1024 768 startedWorld 2 3 1 rfl rfl rfl).2.1.trans (by decide)⟩

/-! ## Shutdown -/

/-- The statements of the destructor body, in order. With the context set (and, in a
validation build, the debug interface), the body returns and appends exactly these calls:
`Flush`; the resets of `_textureSrv`, `_triangleVertices`, `_linearSamplerState`,
`_rasterState`; `_shaderCollection.Destroy()`; the reset of `_renderTarget`
(`DestroySwapchainResources`); the resets of `_swapChain`, `_dxgiFactory`, `_deviceContext`;
in a validation build only, `ReportLiveDeviceObjects` and the reset of `_debug`; and the
reset of `_device` as its last statement. `_fallbackTextureSrv` is not among them. -/
theorem destructor_order (b : Build) (w : World) (ctx dbg : Handle)
    (hctx : w.deviceContext = some ctx) (hdbg : b.ndebug = false → w.debug = some dbg) :
    (destructorBody b w).value? = some () ∧
    (destructorBody b w).world.calls =
      w.calls ++
        [ Call.flush ctx,
          Call.comReset .textureSrv w.textureSrv,
          Call.comReset .triangleVertices w.triangleVertices,
          Call.comReset .linearSamplerState w.linearSamplerState,
          Call.comReset .rasterState w.rasterState,
          Call.shaderCollectionDestroy w.shaderCollection.resources,
          Call.comReset .renderTarget w.renderTarget,
          Call.comReset .swapChain w.swapChain,
          Call.comReset .dxgiFactory w.dxgiFactory,
          Call.comReset .deviceContext (some ctx) ] ++
        (if b.ndebug then []
         else [Call.reportLiveDeviceObjects dbg, Call.comReset .debug (some dbg)]) ++
        [Call.comReset .device w.device] := by
  obtain ⟨nd⟩ := b
  cases nd
  · have hd : w.debug = some dbg := hdbg rfl
    simp [destructorBody, DestroySwapchainResources, ShaderCollection_Destroy, World.Reset,
      World.emit, World.set, World.get, Outcome.world, Outcome.value?, hctx, hd]
  · simp [destructorBody, DestroySwapchainResources, ShaderCollection_Destroy, World.Reset,
      World.emit, World.set, World.get, Outcome.world, Outcome.value?, hctx]

/-- The destructor body at a sample input: shutdown of a validation build after a successful
`Initialize` and `Load`. -/
theorem destructor_order_witness :
    loadedWorld.deviceContext = some 2 ∧ loadedWorld.debug = some 1 ∧
      (destructorBody debugBuild loadedWorld).world.calls =
        loadedWorld.calls ++
          [ Call.flush 2,
            Call.comReset .textureSrv (some 12),
            Call.comReset .triangleVertices (some 8),
            Call.comReset .linearSamplerState (some 13),
            Call.comReset .rasterState none,
            Call.shaderCollectionDestroy [5, 6, 7],
            Call.comReset .renderTarget (some 4),
            Call.comReset .swapChain (some 3),
            Call.comReset .dxgiFactory (some 0),
            Call.comReset .deviceContext (some 2),
            Call.reportLiveDeviceObjects 1,
            Call.comReset .debug (some 1),
            Call.comReset .device (some 1) ] :=
  ⟨rfl, rfl,
    (destructor_order debugBuild loadedWorld 2 1 rfl (fun _ => rfl)).2.trans (by decide)⟩

/-- The whole destructor, in order: the calls of the body, ending with the reset of
`_device`, and after them the release that the destructor of `_fallbackTextureSrv` makes. -/
theorem destructor_calls (b : Build) (w : World) (ctx dbg : Handle)
    (hctx : w.deviceContext = some ctx) (hdbg : b.ndebug = false → w.debug = some dbg) :
    (destructor b w).value? = some () ∧
    (destructor b w).world.calls =
      w.calls ++
        [ Call.flush ctx,
          Call.comReset .textureSrv w.textureSrv,
          Call.comReset .triangleVertices w.triangleVertices,
          Call.comReset .linearSamplerState w.linearSamplerState,
          Call.comReset .rasterState w.rasterState,
          Call.shaderCollectionDestroy w.shaderCollection.resources,
          Call.comReset .renderTarget w.renderTarget,
          Call.comReset .swapChain w.swapChain,
          Call.comReset .dxgiFactory w.dxgiFactory,
          Call.comReset .deviceContext (some ctx) ] ++
        (if b.ndebug then []
         else [Call.reportLiveDeviceObjects dbg, Call.comReset .debug (some dbg)]) ++
        [ Call.comReset .device w.device,
          Call.comDestructor .fallbackTextureSrv w.fallbackTextureSrv ] := by
  obtain ⟨nd⟩ := b
  cases nd
  · have hd : w.debug = some dbg := hdbg rfl
    simp [destructor, memberDestructors, destructorBody, DestroySwapchainResources,
      ShaderCollection_Destroy, World.Reset, World.emit, World.set, World.get, Outcome.world,
      Outcome.value?, hctx, hd]
  · simp [destructor, memberDestructors, destructorBody, DestroySwapchainResources,
      ShaderCollection_Destroy, World.Reset, World.emit, World.set, World.get, Outcome.world,
      Outcome.value?, hctx]

/-- C8 (the code at a failing input). Shutdown after a successful `Initialize` and `Load`.
The destructor body runs in the documented order, but the fallback texture view (object 10)
is not released with the other texture-view, vertex-buffer and sampler handles: the body
never resets `_fallbackTextureSrv`, so the view is released by that member's destructor,
after the reset of `_device`, and the device is not the last release. This holds in a
validation build when the primary texture loaded (`_textureSrv` is object 12), in a
validation build when `_textureSrv` aliases the fallback view, and in a production build. -/
theorem destructor_releases_fallback_view_after_device :
    loadedWorld.fallbackTextureSrv = some 10 ∧
    (destructor debugBuild loadedWorld).value? = some () ∧
    (destructor debugBuild loadedWorld).world.calls =
      loadedWorld.calls ++
        [ Call.flush 2,
          Call.comReset .textureSrv (some 12),
          Call.comReset .triangleVertices (some 8),
          Call.comReset .linearSamplerState (some 13),
          Call.comReset .rasterState none,
          Call.shaderCollectionDestroy [5, 6, 7],
          Call.comReset .renderTarget (some 4),
          Call.comReset .swapChain (some 3),
          Call.comReset .dxgiFactory (some 0),
          Call.comReset .deviceContext (some 2),
          Call.reportLiveDeviceObjects 1,
          Call.comReset .debug (some 1),
          Call.comReset .device (some 1),
          Call.comDestructor .fallbackTextureSrv (some 10) ] ∧
    (destructorBody debugBuild loadedWorld).world.com.refs 10 = 2 ∧
    aliasedWorld.fallbackTextureSrv = some 10 ∧
    (destructor debugBuild aliasedWorld).world.calls =
      aliasedWorld.calls ++
        [ Call.flush 2,
          Call.comReset .textureSrv (some 10),
          Call.comReset .triangleVertices (some 8),
          Call.comReset .linearSamplerState (some 11),
          Call.comReset .rasterState none,
          Call.shaderCollectionDestroy [5, 6, 7],
          Call.comReset .renderTarget (some 4),
          Call.comReset .swapChain (some 3),
          Call.comReset .dxgiFactory (some 0),
          Call.comReset .deviceContext (some 2),
          Call.reportLiveDeviceObjects 1,
          Call.comReset .debug (some 1),
          Call.comReset .device (some 1),
          Call.comDestructor .fallbackTextureSrv (some 10) ] ∧
    ((destructor releaseBuild
        (Load releaseBuild okLoadEnv
          (Initialize releaseBuild okInitEnv freshWorld).world).world).world.calls.drop
      (Load releaseBuild okLoadEnv
        (Initialize releaseBuild okInitEnv freshWorld).world).world.calls.length) =
      [ Call.flush 2,
        Call.comReset .textureSrv (some 12),
        Call.comReset .triangleVertices (some 8),
        Call.comReset .linearSamplerState (some 13),
        Call.comReset .rasterState none,
        Call.shaderCollectionDestroy [5, 6, 7],
        Call.comReset .renderTarget (some 4),
        Call.comReset .swapChain (some 3),
        Call.comReset .dxgiFactory (some 0),
        Call.comReset .deviceContext (some 2),
        Call.comReset .device (some 1),
        Call.comDestructor .fallbackTextureSrv (some 10) ] := by
  decide

/-! ## CreateTextureView -/

theorem createTexture2DRequests_append (cs ds : List Call) :
    createTexture2DRequests (cs ++ ds) =
      createTexture2DRequests cs ++ createTexture2DRequests ds := by
  simp [createTexture2DRequests, List.filterMap_append]

/-- C2. Let `CreateTextureView` read and decode a bitmap `b` (the file is read, its type is
known, `FreeImage_LoadFromMemory` returns `b`). Then, by the bit depth of `b`:
8 gives one `CreateTexture2D` request with format `R8_UNORM`, 16 one with `R8G8_UNORM`,
32 one with `R8G8B8A8_UNORM`, each on the flipped pixels of `b` with a pitch of 1, 2, 4 bytes
times the width; 24 gives one request with `R8G8B8A8_UNORM` on the pixels converted to 32
bits, with a pitch of 4 (not 3) times the width; any other depth makes the function return
null with no `CreateTexture2D` request at all. The pitch is a 32-bit product; it is the exact
product whenever the width is below 2^30. -/
theorem CreateTextureView_bit_depth (env : TextureEnv) (dev : Handle) (path : Asset) (w : World)
    (b : Bitmap) (hread : env.readFile = true) (hknown : env.fileTypeKnown = true)
    (himage : env.image = some b) :
    (b.bpp = 8 →
      createTexture2DRequests (CreateTextureView env (some dev) path w).world.calls =
        createTexture2DRequests w.calls ++
          [{ format := .R8_UNORM, width := b.width, height := b.height, arraySize := 1,
             mipLevels := 1, sampleCount := 1, sysMem := some (.flipped b.pixels),
             sysMemPitch := (1 * b.width) % 4294967296 }]) ∧
    (b.bpp = 16 →
      createTexture2DRequests (CreateTextureView env (some dev) path w).world.calls =
        createTexture2DRequests w.calls ++
          [{ format := .R8G8_UNORM, width := b.width, height := b.height, arraySize := 1,
             mipLevels := 1, sampleCount := 1, sysMem := some (.flipped b.pixels),
             sysMemPitch := (2 * b.width) % 4294967296 }]) ∧
    (b.bpp = 32 →
      createTexture2DRequests (CreateTextureView env (some dev) path w).world.calls =
        createTexture2DRequests w.calls ++
          [{ format := .R8G8B8A8_UNORM, width := b.width, height := b.height, arraySize := 1,
             mipLevels := 1, sampleCount := 1, sysMem := some (.flipped b.pixels),
             sysMemPitch := (4 * b.width) % 4294967296 }]) ∧
    (b.bpp = 24 →
      createTexture2DRequests (CreateTextureView env (some dev) path w).world.calls =
        createTexture2DRequests w.calls ++
          [{ format := .R8G8B8A8_UNORM, width := b.width, height := b.height, arraySize := 1,
             mipLevels := 1, sampleCount := 1,
             sysMem := some (.converted32 (.flipped b.pixels)),
             sysMemPitch := (4 * b.width) % 4294967296 }]) ∧
    (b.width < 1073741824 → (4 * b.width) % 4294967296 = 4 * b.width) ∧
    (b.bpp ≠ 8 → b.bpp ≠ 16 → b.bpp ≠ 24 → b.bpp ≠ 32 →
      (CreateTextureView env (some dev) path w).value? = some none ∧
      createTexture2DRequests (CreateTextureView env (some dev) path w).world.calls =
        createTexture2DRequests w.calls) := by
  have hreq : ∀ req, textureRequest (FreeImage_FlipVertical env.image) = some req →
      createTexture2DRequests (CreateTextureView env (some dev) path w).world.calls =
        createTexture2DRequests w.calls ++ [req] := by
    intro req h
    cases h2 : env.createTexture2D <;> cases h3 : env.createShaderResourceView <;>
      simp [CreateTextureView, hread, hknown, h, h2, h3, World.emit, Outcome.world,
        createTexture2DRequests_append] <;>
      simp [createTexture2DRequests]
  refine ⟨fun h => hreq _ ?_, fun h => hreq _ ?_, fun h => hreq _ ?_, fun h => hreq _ ?_,
    fun h => by omega, fun h8 h16 h24 h32 => ?_⟩
  · simp [himage, textureRequest, selectFormat, FreeImage_FlipVertical, FreeImage_GetBPP,
      FreeImage_GetWidth, FreeImage_GetHeight, FreeImage_GetBits, h]
  · simp [himage, textureRequest, selectFormat, FreeImage_FlipVertical, FreeImage_GetBPP,
      FreeImage_GetWidth, FreeImage_GetHeight, FreeImage_GetBits, h]
  · simp [himage, textureRequest, selectFormat, FreeImage_FlipVertical, FreeImage_GetBPP,
      FreeImage_GetWidth, FreeImage_GetHeight, FreeImage_GetBits, h]
  · simp [himage, textureRequest, selectFormat, FreeImage_FlipVertical, FreeImage_GetBPP,
      FreeImage_GetWidth, FreeImage_GetHeight, FreeImage_GetBits, FreeImage_ConvertTo32Bits, h]
  · have hnone : textureRequest (FreeImage_FlipVertical env.image) = none := by
      simp [himage, textureRequest, selectFormat, FreeImage_FlipVertical, FreeImage_GetBPP,
        h8, h16, h24, h32]
    simp [CreateTextureView, hread, hknown, hnone, World.emit, Outcome.world, Outcome.value?,
      createTexture2DRequests_append]
    simp [createTexture2DRequests]

/-- Witness for C2: the 32-bit sample bitmap, read as the fallback image. -/
theorem CreateTextureView_bit_depth_witness :
    okTextureEnv.readFile = true ∧ okTextureEnv.fileTypeKnown = true ∧
      okTextureEnv.image = some sampleBitmap ∧
      createTexture2DRequests
          (CreateTextureView okTextureEnv (some 1) .defaultPng startedWorld).world.calls =
        createTexture2DRequests startedWorld.calls ++
          [{ format := .R8G8B8A8_UNORM, width := 64, height := 64, arraySize := 1,
             mipLevels := 1, sampleCount := 1, sysMem := some (.flipped .decoded),
             sysMemPitch := 256 }] :=
  ⟨rfl, rfl, rfl,
    (CreateTextureView_bit_depth okTextureEnv 1 .defaultPng startedWorld sampleBitmap rfl rfl
      rfl).2.2.1 rfl⟩

/-! ## Load -/

/-- Whether `CreateTextureViewFromDDS` returns a view depends on the three DirectXTex
outcomes only. -/
theorem CreateTextureViewFromDDS_fst (env : DdsEnv) (dev : Handle) (path : Asset) (w : World) :
    (CreateTextureViewFromDDS env (some dev) path w).1 =
      if env.loadFromDDSFile && env.createTexture && env.createShaderResourceView then
        some (w.com.next + 1)
      else none := by
  obtain ⟨e1, e2, e3⟩ := env
  cases e1 <;> cases e2 <;> cases e3 <;> simp [CreateTextureViewFromDDS, World.emit, World.log]

/-- With a device, `CreateTextureView` returns; whether it returns a view depends on the
outcomes and on the bit depth only. -/
theorem CreateTextureView_value (env : TextureEnv) (dev : Handle) (path : Asset) (w : World) :
    (CreateTextureView env (some dev) path w).value? =
      some (if env.readFile && env.fileTypeKnown &&
              (textureRequest (FreeImage_FlipVertical env.image)).isSome &&
              env.createTexture2D && env.createShaderResourceView then
            some (w.com.next + 1)
          else none) := by
  obtain ⟨e1, e2, img, e3, e4⟩ := env
  cases hreq : textureRequest (FreeImage_FlipVertical img) <;>
    cases e1 <;> cases e2 <;> cases e3 <;> cases e4 <;>
    simp [CreateTextureView, World.emit, Outcome.value?, hreq]

/-- C1. Let the device exist and let, in one `Load`, the vertex buffer be created, the
fallback texture load return a view, the DDS load return null and the sampler state be
created. Then `Load` returns `true`, `_fallbackTextureSrv` holds a view, and `_textureSrv`
holds the very same handle. -/
theorem Load_substitutes_fallback (b : Build) (env : LoadEnv) (w : World) (dev : Handle)
    (hdev : w.device = some dev) (hbuffer : env.createBuffer = true)
    (hfallback : ∀ w0, ∃ v,
      (CreateTextureView env.fallback (some dev) .defaultPng w0).value? = some (some v))
    (hprimary : ∀ w0, (CreateTextureViewFromDDS env.dds (some dev) .frogeDds w0).1 = none)
    (hsampler : env.createSamplerState = true) :
    (Load b env w).value? = some true ∧
      (∃ v, (Load b env w).world.fallbackTextureSrv = some v) ∧
      (Load b env w).world.textureSrv = (Load b env w).world.fallbackTextureSrv := by
  obtain ⟨nd⟩ := b
  obtain ⟨esc, ebuf, ⟨f1, f2, img, f3, f4⟩, ⟨d1, d2, d3⟩, esam⟩ := env
  simp only at hbuffer hsampler
  subst hbuffer hsampler
  have hp := hprimary w
  rw [CreateTextureViewFromDDS_fst] at hp
  obtain ⟨v, hv⟩ := hfallback w
  rw [CreateTextureView_value] at hv
  simp only [Option.some.injEq] at hv
  cases hreq : textureRequest (FreeImage_FlipVertical img) with
  | none => simp [hreq] at hv
  | some req =>
    cases f1 <;> cases f2 <;> cases f3 <;> cases f4 <;> simp [hreq] at hv
    cases d1 <;> cases d2 <;> cases d3 <;> simp at hp <;>
      cases nd <;> cases esc <;>
      simp [Load, LoadTextureAndSampler, CreateShaderCollection, CreateTextureView,
        CreateTextureViewFromDDS, hdev, hreq, World.addressOf, World.created, World.emit,
        World.log, World.set, World.get, Outcome.value?, Outcome.world]

/-- Witness for C1: after a successful `Initialize`, a `Load` in which only the DDS file is
missing. -/
theorem Load_substitutes_fallback_witness :
    startedWorld.device = some 1 ∧
      (Load debugBuild { okLoadEnv with dds := missingDdsEnv } startedWorld).value? = some true ∧
      (Load debugBuild { okLoadEnv with dds := missingDdsEnv } startedWorld).world.textureSrv =
        some 10 ∧
      (Load debugBuild { okLoadEnv with dds := missingDdsEnv }
        startedWorld).world.fallbackTextureSrv = some 10 :=
  have h := Load_substitutes_fallback debugBuild { okLoadEnv with dds := missingDdsEnv }
    startedWorld 1 rfl rfl (fun w0 => ⟨w0.com.next + 1, rfl⟩) (fun _ => rfl) rfl
  ⟨rfl, h.1, h.2.2.trans rfl, rfl⟩

/-- A failed vertex-buffer creation makes `Load` return `false`. -/
theorem Load_false_of_createBuffer_failure (b : Build) (env : LoadEnv) (w : World) (dev : Handle)
    (hdev : w.device = some dev) (hbuffer : env.createBuffer = false) :
    (Load b env w).value? = some false := by
  cases hsc : env.createShaderCollection <;>
    simp [Load, CreateShaderCollection, hdev, hbuffer, hsc, World.addressOf, World.emit,
      World.log, World.set, World.get, Outcome.value?]

/-- A failed sampler-state creation never lets `Load` return `true`. -/
theorem Load_not_true_of_sampler_failure (b : Build) (env : LoadEnv) (w : World)
    (hsampler : env.createSamplerState = false) :
    (Load b env w).value? ≠ some true := by
  unfold Load
  simp only []
  split
  · simp [Outcome.value?]
  · split
    · simp [Outcome.value?]
    · split
      · simp [Outcome.value?]
      · split
        · simp [Outcome.value?]
        · simp [LoadTextureAndSampler, hsampler, Outcome.value?]

/-- In a validation build a null fallback view stops `Load` at the `assert`. -/
theorem Load_debug_asserts_fallback (env : LoadEnv) (w : World) (dev : Handle)
    (hdev : w.device = some dev) (hbuffer : env.createBuffer = true)
    (hfallback : ∀ w0,
      (CreateTextureView env.fallback (some dev) .defaultPng w0).value? = some none) :
    (Load debugBuild env w).fault? = some .assertionFailed := by
  have key : ∀ w0, (CreateTextureView env.fallback (some dev) .defaultPng w0) =
      .returned none (CreateTextureView env.fallback (some dev) .defaultPng w0).world := by
    intro w0
    have h := hfallback w0
    cases hr : CreateTextureView env.fallback (some dev) .defaultPng w0 with
    | returned a w1 => rw [hr] at h; simp [Outcome.value?] at h; simp [h, Outcome.world]
    | faulted f w1 => rw [hr] at h; simp [Outcome.value?] at h
  cases hsc : env.createShaderCollection <;>
    simp [Load, CreateShaderCollection, hdev, hbuffer, hsc, World.addressOf, World.created,
      World.emit, World.set, World.get, debugBuild] <;>
    (rw [key]; simp [World.set, Outcome.fault?])

/-- Once `Load` reaches the primary texture, what it returns is the outcome of the sampler
state creation. -/
theorem LoadTextureAndSampler_value (env : LoadEnv) (dev : Handle) (w : World) :
    (LoadTextureAndSampler env dev w).value? = some env.createSamplerState := by
  cases hs : env.createSamplerState <;> simp [LoadTextureAndSampler, hs, Outcome.value?]

/-- In a production build a null fallback view does not stop `Load`: with the vertex buffer
and the sampler state created it returns `true`. -/
theorem Load_release_ignores_fallback (env : LoadEnv) (w : World) (dev : Handle)
    (hdev : w.device = some dev) (hbuffer : env.createBuffer = true)
    (hfallback : ∀ w0,
      (CreateTextureView env.fallback (some dev) .defaultPng w0).value? = some none)
    (hsampler : env.createSamplerState = true) :
    (Load releaseBuild env w).value? = some true := by
  have key : ∀ w0, (CreateTextureView env.fallback (some dev) .defaultPng w0) =
      .returned none (CreateTextureView env.fallback (some dev) .defaultPng w0).world := by
    intro w0
    have h := hfallback w0
    cases hr : CreateTextureView env.fallback (some dev) .defaultPng w0 with
    | returned a w1 => rw [hr] at h; simp [Outcome.value?] at h; simp [h, Outcome.world]
    | faulted f w1 => rw [hr] at h; simp [Outcome.value?] at h
  cases hsc : env.createShaderCollection <;>
    simp [Load, CreateShaderCollection, hdev, hbuffer, hsc, World.addressOf, World.created,
      World.emit, World.set, World.get, releaseBuild] <;>
    (rw [key]; simp [LoadTextureAndSampler_value, hsampler])

/-- C3 (the code at a failing input). Production build, after a successful `Initialize`:
the fallback image cannot be read, so `CreateTextureView` returns null; the DDS file is
missing too; vertex buffer and sampler state are created. `Load` returns `true` and leaves
both `_fallbackTextureSrv` and `_textureSrv` null. -/
theorem Load_release_build_null_fallback :
    (CreateTextureView missingTextureEnv (some 1) .defaultPng
        (Initialize releaseBuild okInitEnv freshWorld).world).value? = some none ∧
      (Load releaseBuild { okLoadEnv with fallback := missingTextureEnv, dds := missingDdsEnv }
        (Initialize releaseBuild okInitEnv freshWorld).world).value? = some true ∧
      (Load releaseBuild { okLoadEnv with fallback := missingTextureEnv, dds := missingDdsEnv }
        (Initialize releaseBuild okInitEnv freshWorld).world).world.fallbackTextureSrv = none ∧
      (Load releaseBuild { okLoadEnv with fallback := missingTextureEnv, dds := missingDdsEnv }
        (Initialize releaseBuild okInitEnv freshWorld).world).world.textureSrv = none := by
  decide

/-- C4 as stated fails. After a successful `Initialize`, a `Load` in which
`CreateShaderCollection` fails and every other call succeeds returns `true`, with a shader
collection that holds no resources, in validation and production builds alike. -/
theorem Load_ignores_shader_collection_failure :
    (Load debugBuild { okLoadEnv with createShaderCollection := false } startedWorld).value? =
        some true ∧
      (Load debugBuild { okLoadEnv with createShaderCollection := false }
        startedWorld).world.shaderCollection.resources = [] ∧
      (Load releaseBuild { okLoadEnv with createShaderCollection := false }
        (Initialize releaseBuild okInitEnv freshWorld).world).value? = some true := by
  decide

theorem callsSince_append (w1 w : World) (new : List Call) (h : w1.calls = w.calls ++ new) :
    w1.callsSince w = new := by
  simp [World.callsSince, h]

/-- The calls of `CreateTextureView` contain no buffer or sampler creation. -/
theorem CreateTextureView_frame (env : TextureEnv) (dev : Handle) (path : Asset) (w : World) :
    ∃ new, (CreateTextureView env (some dev) path w).world.calls = w.calls ++ new ∧
      new.any Call.isFailedBuffer = false ∧ new.any Call.isFailedSampler = false := by
  refine ⟨(CreateTextureView env (some dev) path w).world.callsSince w, ?_, ?_, ?_⟩ <;>
    obtain ⟨e1, e2, img, e3, e4⟩ := env <;>
    cases hreq : textureRequest (FreeImage_FlipVertical img) <;>
    cases e1 <;> cases e2 <;> cases e3 <;> cases e4 <;>
    simp [CreateTextureView, World.emit, Outcome.world, World.callsSince, hreq,
      Call.isFailedBuffer, Call.isFailedSampler]

/-- The calls of `CreateTextureViewFromDDS` contain no buffer or sampler creation. -/
theorem CreateTextureViewFromDDS_frame (env : DdsEnv) (device : Option Handle) (path : Asset)
    (w : World) :
    ∃ new, (CreateTextureViewFromDDS env device path w).2.calls = w.calls ++ new ∧
      new.any Call.isFailedBuffer = false ∧ new.any Call.isFailedSampler = false := by
  refine ⟨(CreateTextureViewFromDDS env device path w).2.callsSince w, ?_, ?_, ?_⟩ <;>
    obtain ⟨e1, e2, e3⟩ := env <;>
    cases device <;> cases e1 <;> cases e2 <;> cases e3 <;>
    simp [CreateTextureViewFromDDS, World.emit, World.log, World.callsSince,
      Call.isFailedBuffer, Call.isFailedSampler]

/-- The calls of lines 318-336 of `Load` contain no buffer creation, and a failed sampler
creation exactly when `CreateSamplerState` fails. -/
theorem LoadTextureAndSampler_frame (env : LoadEnv) (dev : Handle) (w : World) :
    ∃ new, (LoadTextureAndSampler env dev w).world.calls = w.calls ++ new ∧
      new.any Call.isFailedBuffer = false ∧
      new.any Call.isFailedSampler = !env.createSamplerState := by
  obtain ⟨dnew, hd, hb, hs⟩ := CreateTextureViewFromDDS_frame env.dds w.device .frogeDds w
  refine ⟨(LoadTextureAndSampler env dev w).world.callsSince w, ?_, ?_, ?_⟩ <;>
    cases hsam : env.createSamplerState <;>
    simp [LoadTextureAndSampler, hsam, World.addressOf, World.created, World.emit, World.log,
      World.set, World.get, Outcome.world, apply_ite World.calls, hd, World.callsSince, hb, hs,
      Call.isFailedBuffer, Call.isFailedSampler]

theorem CreateTextureView_frame_of_eq (env : TextureEnv) (dev : Handle) (path : Asset)
    (w : World) (r : Outcome (Option Handle))
    (h : CreateTextureView env (some dev) path w = r) :
    ∃ new, r.world.calls = w.calls ++ new ∧
      new.any Call.isFailedBuffer = false ∧ new.any Call.isFailedSampler = false ∧
      r.fault? = none := by
  subst h
  obtain ⟨new, h1, h2, h3⟩ := CreateTextureView_frame env dev path w
  refine ⟨new, h1, h2, h3, ?_⟩
  have hv := CreateTextureView_value env dev path w
  cases hr : CreateTextureView env (some dev) path w with
  | returned a w1 => rfl
  | faulted f w1 => rw [hr] at hv; simp [Outcome.value?] at hv

theorem LoadTextureAndSampler_frame_of_eq (env : LoadEnv) (dev : Handle) (w : World)
    (r : Outcome Bool) (h : LoadTextureAndSampler env dev w = r) :
    ∃ new, r.world.calls = w.calls ++ new ∧
      new.any Call.isFailedBuffer = false ∧
      new.any Call.isFailedSampler = !env.createSamplerState ∧
      r.value? = some env.createSamplerState := by
  subst h
  obtain ⟨new, h1, h2, h3⟩ := LoadTextureAndSampler_frame env dev w
  exact ⟨new, h1, h2, h3, LoadTextureAndSampler_value env dev w⟩

theorem Load_cases (b : Build) (env : LoadEnv) (w : World) (dev : Handle)
    (hdev : w.device = some dev) :
    ∃ new, (Load b env w).world.calls = w.calls ++ new ∧
      ((env.createBuffer = false ∧ (Load b env w).value? = some false ∧
          new.any Call.isFailedBuffer = true ∧ new.any Call.isFailedSampler = false) ∨
       (env.createBuffer = true ∧ new.any Call.isFailedBuffer = false ∧
          (((Load b env w).fault? = some .assertionFailed ∧ b.ndebug = false ∧
              (∃ w0, (CreateTextureView env.fallback (some dev) .defaultPng w0).value? =
                some none) ∧
              new.any Call.isFailedSampler = false) ∨
           ((Load b env w).value? = some env.createSamplerState ∧
              new.any Call.isFailedSampler = !env.createSamplerState)))) := by
  cases hbuf : env.createBuffer
  · refine ⟨(Load b env w).world.callsSince w, ?_, Or.inl ⟨rfl, ?_, ?_, ?_⟩⟩ <;>
      cases hsc : env.createShaderCollection <;>
      simp [Load, CreateShaderCollection, hdev, hbuf, hsc, World.addressOf, World.emit,
        World.log, World.set, World.get, Outcome.value?, Outcome.world, World.callsSince,
        Call.isFailedBuffer, Call.isFailedSampler]
  · obtain ⟨r, hL⟩ : ∃ r, Load b env w = r := ⟨_, rfl⟩
    rw [hL]
    cases hsc : env.createShaderCollection <;>
      simp [Load, CreateShaderCollection, hdev, hbuf, hsc, World.addressOf, World.created,
        World.emit, World.set, World.get] at hL <;>
      split at hL
    all_goals
      rename_i x f3 w3 heq
      obtain ⟨new, h1, h2, h3, h4⟩ := CreateTextureView_frame_of_eq _ _ _ _ _ heq
    all_goals first
      | (simp [Outcome.fault?] at h4; done)
      | skip
    all_goals
      simp only [Outcome.world] at h1
      split at hL
      · rename_i hcond
        refine ⟨r.world.callsSince w, ?_, Or.inr ⟨rfl, ?_,
          Or.inl ⟨?_, hcond.1, ⟨_, (congrArg Outcome.value? heq).trans ?_⟩, ?_⟩⟩⟩ <;>
          subst hL <;>
          simp [Outcome.world, Outcome.fault?, Outcome.value?, World.callsSince, World.set, h1,
            h2, h3, hcond.2, Call.isFailedBuffer, Call.isFailedSampler]
      · obtain ⟨n2, g1, g2, g3, g4⟩ := LoadTextureAndSampler_frame_of_eq _ _ _ _ hL
        refine ⟨r.world.callsSince w, ?_, Or.inr ⟨rfl, ?_, Or.inr ⟨g4, ?_⟩⟩⟩ <;>
          simp [World.callsSince, World.set, g1, h1, h2, h3, g2, g3, Call.isFailedBuffer,
            Call.isFailedSampler]

/-- C4, amended. With the device set, `Load` returns `false` whenever creation of the vertex
buffer or of the sampler state fails, that is whenever the calls it makes include a failed
`CreateBuffer` or a failed `CreateSamplerState`. `CreateBuffer` is always called, so a
failing vertex buffer always makes `Load` return `false`; `CreateSamplerState` is called as
soon as the vertex buffer exists and the `assert` on the fallback view lets the run pass
(`NDEBUG` defined, or the fallback load returned a view), and then a failing sampler state
makes `Load` return `false`. The shader collection is not among the resources checked: the
value returned by `CreateShaderCollection` is not examined. -/
theorem Load_checks_buffer_and_sampler (b : Build) (env : LoadEnv) (w : World) (dev : Handle)
    (hdev : w.device = some dev) :
    (((Load b env w).world.callsSince w).any Call.isFailedBuffer = true →
      (Load b env w).value? = some false) ∧
    (((Load b env w).world.callsSince w).any Call.isFailedSampler = true →
      (Load b env w).value? = some false) ∧
    (env.createBuffer = false →
      ((Load b env w).world.callsSince w).any Call.isFailedBuffer = true ∧
      (Load b env w).value? = some false) ∧
    (env.createBuffer = true → env.createSamplerState = false →
      (b.ndebug = true ∨ ∀ w0, ∃ v,
        (CreateTextureView env.fallback (some dev) .defaultPng w0).value? = some (some v)) →
      ((Load b env w).world.callsSince w).any Call.isFailedSampler = true ∧
      (Load b env w).value? = some false) := by
  obtain ⟨new, hc, h⟩ := Load_cases b env w dev hdev
  rw [callsSince_append _ _ _ hc]
  rcases h with ⟨hb, hv, hfb, hfs⟩ | ⟨hb, hfb, ⟨hf, hnd, ⟨w0, hw0⟩, hfs⟩ | ⟨hv, hfs⟩⟩
  · refine ⟨fun _ => hv, fun h => ?_, fun _ => ⟨hfb, hv⟩, fun h => ?_⟩
    · rw [hfs] at h; exact absurd h (by decide)
    · rw [hb] at h; exact absurd h (by decide)
  · refine ⟨fun h => ?_, fun h => ?_, fun h => ?_, fun _ _ h => ?_⟩
    · rw [hfb] at h; exact absurd h (by decide)
    · rw [hfs] at h; exact absurd h (by decide)
    · rw [hb] at h; exact absurd h (by decide)
    · rcases h with h | h
      · rw [hnd] at h; exact absurd h (by decide)
      · obtain ⟨v, hv⟩ := h w0
        rw [hw0] at hv
        exact absurd hv (by simp)
  · refine ⟨fun h => ?_, fun h => ?_, fun h => ?_, fun _ hs _ => ?_⟩
    · rw [hfb] at h; exact absurd h (by decide)
    · rw [hfs] at h
      cases hs : env.createSamplerState
      · rw [hv, hs]
      · rw [hs] at h; exact absurd h (by decide)
    · rw [hb] at h; exact absurd h (by decide)
    · rw [hfs, hv, hs]; exact ⟨rfl, rfl⟩

/-- Witness for C4 as amended: after a successful `Initialize`, a `Load` whose vertex buffer
cannot be created, and one whose sampler state cannot be created. -/
theorem Load_checks_buffer_and_sampler_witness :
    startedWorld.device = some 1 ∧
      ((Load debugBuild { okLoadEnv with createBuffer := false } startedWorld).world.callsSince
        startedWorld).any Call.isFailedBuffer = true ∧
      (Load debugBuild { okLoadEnv with createBuffer := false } startedWorld).value? =
        some false ∧
      ((Load debugBuild { okLoadEnv with createSamplerState := false }
        startedWorld).world.callsSince startedWorld).any Call.isFailedSampler = true ∧
      (Load debugBuild { okLoadEnv with createSamplerState := false } startedWorld).value? =
        some false :=
  ⟨rfl, by decide,
    (Load_checks_buffer_and_sampler debugBuild { okLoadEnv with createBuffer := false }
      startedWorld 1 rfl).1 (by decide),
    by decide,
    (Load_checks_buffer_and_sampler debugBuild { okLoadEnv with createSamplerState := false }
      startedWorld 1 rfl).2.1 (by decide)⟩

/-! ## Sequences of resizes -/

theorem viewLedger_append (cs ds : List Call) :
    viewLedger (cs ++ ds) = (viewLedger cs).bind fun l => ds.foldlM ViewLedger.step l := by
  unfold viewLedger
  rw [List.foldlM_append]
  rfl

/-- A fully successful `OnResize` to a positive size keeps the swapchain side set up: the
old view is released, and `_renderTarget` holds a new view over a back buffer of the
requested size. -/
theorem OnResize_ready (w : World) (v : Handle) (h : SwapReady w v) (width height : Int)
    (hw : 0 < width) (hw2 : width < 2147483648) (hh : 0 < height) (hh2 : height < 2147483648) :
    (OnResize okResize width height w).fault? = none ∧
      SwapReady (OnResize okResize width height w).world w.com.next ∧
      (OnResize okResize width height w).world.viewSize w.com.next =
        some (width.toNat, height.toNat) := by
  obtain ⟨hc, hs, hd, hv, hr, l, hl, hlive, hnext, hzero⟩ := h
  obtain ⟨ctx, hctx⟩ := Option.ne_none_iff_exists'.mp hc
  obtain ⟨sc, hsc⟩ := Option.ne_none_iff_exists'.mp hs
  obtain ⟨dev, hdev⟩ := Option.ne_none_iff_exists'.mp hd
  have hW : toUINT width = width.toNat := toUINT_of_nonneg width hw.le (by omega)
  have hH : toUINT height = height.toNat := toUINT_of_nonneg height hh.le (by omega)
  have hW0 : width.toNat ≠ 0 := by omega
  have hH0 : height.toNat ≠ 0 := by omega
  have hR : OnResize okResize width height w = .returned ()
      { w with
        windowWidth := width
        windowHeight := height
        renderTarget := some w.com.next
        com := (w.com.Release v).create
        backBufferSize := (width.toNat, height.toNat)
        viewSize := fun k => if k = w.com.next then some (width.toNat, height.toNat)
          else w.viewSize k
        calls := w.calls ++
          [ Call.applicationOnResize width height, Call.flush ctx,
            Call.comReset .renderTarget (some v),
            Call.resizeBuffers sc 0 width.toNat height.toNat .B8G8R8A8_UNORM 0 true,
            Call.getBuffer sc 0 true,
            Call.comReleaseAndGetAddressOf .renderTarget none,
            Call.createRenderTargetView dev (width.toNat, height.toNat) (some w.com.next) ] } := by
    simp [okResize, okSwapRes, OnResize, Application_OnResize, DestroySwapchainResources,
      CreateSwapchainResources, World.Reset, World.addressOf, World.created, World.emit,
      World.log, World.set, World.get, hctx, hsc, hdev, hv, resizedBuffers, hW, hH, hW0, hH0,
      ComPtr.InternalRelease]
  rw [hR]
  refine ⟨rfl, ⟨?_, ?_, ?_, rfl, ?_, ?_⟩, ?_⟩
  · simpa [Outcome.world] using hc
  · simpa [Outcome.world] using hs
  · simpa [Outcome.world] using hd
  · simp [Outcome.world, Com.create, Com.Release]
  · refine ⟨{ live := some w.com.next, created := w.com.next :: l.created }, ?_, rfl, ?_, ?_⟩
    · have hfresh : w.com.next ∉ l.created := fun hmem => absurd (hnext _ hmem) (lt_irrefl _)
      simp [Outcome.world, viewLedger_append, hl, ViewLedger.step, ViewLedger.release, hlive,
        hfresh]
    · intro h hmem
      show h < w.com.next + 1
      rcases List.mem_cons.mp hmem with rfl | hmem
      · exact Nat.lt_succ_self _
      · exact Nat.lt_succ_of_lt (hnext h hmem)
    · intro h hmem hne
      rcases List.mem_cons.mp hmem with rfl | hmem
      · exact absurd rfl hne
      · by_cases hhv : h = v
        · subst hhv; simp [Outcome.world, Com.create, Com.Release, hr, hne]
        · simp [Outcome.world, Com.create, Com.Release, hne, hhv, hzero h hmem hhv]
  · simp [Outcome.world]

/-- Any number of fully successful resizes to positive sizes keeps the swapchain side set up;
the view held at the end is over a back buffer of the last requested size. -/
theorem resizeAll_ready (reqs : List ResizeRequest) :
    ∀ (w : World) (v : Handle), SwapReady w v →
      (∀ r ∈ reqs, r.env = okResize ∧ 0 < r.width ∧ r.width < 2147483648 ∧
        0 < r.height ∧ r.height < 2147483648) →
      ∀ hne : reqs ≠ [],
        (resizeAll reqs w).fault? = none ∧
          ∃ v1, SwapReady (resizeAll reqs w).world v1 ∧
            (resizeAll reqs w).world.viewSize v1 =
              some ((reqs.getLast hne).width.toNat, (reqs.getLast hne).height.toNat) := by
  induction reqs with
  | nil => intro w v _ _ hne; exact absurd rfl hne
  | cons r rs ih =>
    intro w v hready hreqs hne
    obtain ⟨henv, hw, hw2, hh, hh2⟩ := hreqs r (List.mem_cons_self _ _)
    obtain ⟨hf, hr1, hsize⟩ := OnResize_ready w v hready r.width r.height hw hw2 hh hh2
    have hstep : resizeAll (r :: rs) w =
        resizeAll rs (OnResize okResize r.width r.height w).world := by
      cases hO : OnResize okResize r.width r.height w with
      | returned a w1 => simp [resizeAll, henv, hO, Outcome.world]
      | faulted f w1 => rw [hO] at hf; simp [Outcome.fault?] at hf
    rw [hstep]
    cases rs with
    | nil => exact ⟨rfl, _, hr1, hsize⟩
    | cons r2 rs2 =>
      have := ih _ _ hr1 (fun q hq => hreqs q (List.mem_cons_of_mem _ hq)) (List.cons_ne_nil _ _)
      simpa [List.getLast_cons] using this

/-- What a fully successful `Initialize` of a freshly constructed application leaves. -/
theorem Initialize_ok_fields (b : Build) (e4 : Bool) (hb : b.ndebug = false → e4 = true)
    (width height : Int) (layout : VertexType → Nat) :
    (Initialize b ⟨true, true, true, e4, true, ⟨true, true⟩⟩
        (World.fresh width height layout)).value? = some true ∧
      SwapReady (Initialize b ⟨true, true, true, e4, true, ⟨true, true⟩⟩
        (World.fresh width height layout)).world 4 := by
  obtain ⟨nd⟩ := b
  cases nd
  · have : e4 = true := hb rfl
    subst this
    refine ⟨?_, ?_, ?_, ?_, ?_, ?_,
        ⟨{ live := some 4, created := [4] }, ?_, rfl, ?_, ?_⟩⟩ <;>
      simp [Initialize, InitializeSwapchain, CreateSwapchainResources, World.fresh,
        World.addressOf, World.created, World.emit, World.log, World.set, World.get,
        Outcome.value?, Outcome.world, ComPtr.InternalRelease, Com.create, Com.Release,
        Com.AddRef, viewLedger, ViewLedger.step, ViewLedger.release]
  · refine ⟨?_, ?_, ?_, ?_, ?_, ?_,
        ⟨{ live := some 4, created := [4] }, ?_, rfl, ?_, ?_⟩⟩ <;>
      simp [Initialize, InitializeSwapchain, CreateSwapchainResources, World.fresh,
        World.addressOf, World.created, World.emit, World.log, World.set, World.get,
        Outcome.value?, Outcome.world, ComPtr.InternalRelease, Com.create, Com.Release,
        Com.AddRef, viewLedger, ViewLedger.step, ViewLedger.release]

/-- An `Initialize` of a freshly constructed application that returns `true` and leaves a
render-target view leaves the swapchain side set up. -/
theorem Initialize_ready (b : Build) (env : InitEnv) (width height : Int)
    (layout : VertexType → Nat)
    (hinit : (Initialize b env (World.fresh width height layout)).value? = some true)
    (hview : (Initialize b env (World.fresh width height layout)).world.renderTarget ≠ none) :
    SwapReady (Initialize b env (World.fresh width height layout)).world 4 := by
  obtain ⟨e1, e2, e3, e4, e5, e6, e7⟩ := env
  cases e1
  · simp [Initialize, Outcome.value?] at hinit
  cases e2
  · simp [Initialize, Outcome.value?] at hinit
  cases e3
  · simp [Initialize, Outcome.value?] at hinit
  cases e5
  · obtain ⟨nd⟩ := b
    cases nd <;> cases e4 <;>
      simp [Initialize, InitializeSwapchain, World.fresh, World.addressOf, World.created,
        World.emit, World.log, World.set, World.get, Outcome.value?] at hinit
  cases e6
  · obtain ⟨nd⟩ := b
    cases nd <;> cases e4 <;>
      simp [Initialize, InitializeSwapchain, CreateSwapchainResources, World.fresh,
        World.addressOf, World.created, World.emit, World.log, World.set, World.get,
        Outcome.value?, Outcome.world] at hinit hview
  cases e7
  · obtain ⟨nd⟩ := b
    cases nd <;> cases e4 <;>
      simp [Initialize, InitializeSwapchain, CreateSwapchainResources, World.fresh,
        World.addressOf, World.created, World.emit, World.log, World.set, World.get,
        Outcome.value?, Outcome.world] at hinit hview
  refine (Initialize_ok_fields b e4 ?_ width height layout).2
  intro hb
  cases e4
  · obtain ⟨nd⟩ := b
    simp only at hb
    subst hb
    simp [Initialize, InitializeSwapchain, World.fresh, World.addressOf, World.created,
      World.emit, World.log, World.set, World.get, Outcome.value?] at hinit
  · rfl

theorem Outcome.value_of_fault_none (r : Outcome Unit) (h : r.fault? = none) :
    r.value? = some () := by
  cases r with
  | returned a w => rfl
  | faulted f w => simp [Outcome.fault?] at h

/-- C7, amended. Take a freshly constructed application whose `Initialize` returned `true`
and left a render-target view, and then N >= 1 consecutive `OnResize` calls with positive
`int32_t` dimensions in each of which `ResizeBuffers`, `GetBuffer` and
`CreateRenderTargetView` all succeed. Then every call returns; `_renderTarget` ends up
holding a view `v` over a back buffer of the Nth requested size; `v` has exactly one
outstanding reference; the whole call history keeps creates and releases of views paired
(every release through `_renderTarget` releases the live view, no view is created while
another is live, no `DestroySwapchainResources` finds a null view), with `v` the live one;
and every view created earlier has no reference left. -/
theorem resize_sequence_paired (b : Build) (env : InitEnv) (width height : Int)
    (layout : VertexType → Nat) (reqs : List ResizeRequest) (hne : reqs ≠ [])
    (hinit : (Initialize b env (World.fresh width height layout)).value? = some true)
    (hview : (Initialize b env (World.fresh width height layout)).world.renderTarget ≠ none)
    (hreqs : ∀ r ∈ reqs, r.env = okResize ∧ 0 < r.width ∧ r.width < 2147483648 ∧
      0 < r.height ∧ r.height < 2147483648) :
    ∃ v l,
      (resizeAll reqs (Initialize b env (World.fresh width height layout)).world).value? =
        some () ∧
      (resizeAll reqs
        (Initialize b env (World.fresh width height layout)).world).world.renderTarget =
        some v ∧
      (resizeAll reqs
        (Initialize b env (World.fresh width height layout)).world).world.viewSize v =
        some ((reqs.getLast hne).width.toNat, (reqs.getLast hne).height.toNat) ∧
      (resizeAll reqs
        (Initialize b env (World.fresh width height layout)).world).world.com.refs v = 1 ∧
      viewLedger (resizeAll reqs
        (Initialize b env (World.fresh width height layout)).world).world.calls = some l ∧
      l.live = some v ∧
      ∀ h ∈ l.created, h ≠ v →
        (resizeAll reqs
          (Initialize b env (World.fresh width height layout)).world).world.com.refs h = 0 := by
  have h0 := Initialize_ready b env width height layout hinit hview
  obtain ⟨hf, v, hready, hsize⟩ := resizeAll_ready reqs _ 4 h0 hreqs hne
  obtain ⟨_, _, _, hv, hrefs, l, hl, hlive, _, hzero⟩ := hready
  exact ⟨v, l, Outcome.value_of_fault_none _ hf, hv, hsize, hrefs, hl, hlive, hzero⟩

/-- Witness for C7 as amended: two successful resizes, to 1024 x 768 and then to 640 x 480,
after a successful `Initialize`. -/
theorem resize_sequence_paired_witness :
    (Initialize debugBuild okInitEnv (World.fresh 800 600 fun _ => 32)).value? = some true ∧
    ∃ v l,
      (resizeAll [⟨okResize, 1024, 768⟩, ⟨okResize, 640, 480⟩]
        (Initialize debugBuild okInitEnv (World.fresh 800 600 fun _ => 32)).world).value? =
        some () ∧
      (resizeAll [⟨okResize, 1024, 768⟩, ⟨okResize, 640, 480⟩]
        (Initialize debugBuild okInitEnv
          (World.fresh 800 600 fun _ => 32)).world).world.renderTarget = some v ∧
      (resizeAll [⟨okResize, 1024, 768⟩, ⟨okResize, 640, 480⟩]
        (Initialize debugBuild okInitEnv
          (World.fresh 800 600 fun _ => 32)).world).world.viewSize v = some (640, 480) ∧
      (resizeAll [⟨okResize, 1024, 768⟩, ⟨okResize, 640, 480⟩]
        (Initialize debugBuild okInitEnv
          (World.fresh 800 600 fun _ => 32)).world).world.com.refs v = 1 ∧
      viewLedger (resizeAll [⟨okResize, 1024, 768⟩, ⟨okResize, 640, 480⟩]
        (Initialize debugBuild okInitEnv
          (World.fresh 800 600 fun _ => 32)).world).world.calls = some l ∧
      l.live = some v ∧
      ∀ h ∈ l.created, h ≠ v →
        (resizeAll [⟨okResize, 1024, 768⟩, ⟨okResize, 640, 480⟩]
          (Initialize debugBuild okInitEnv
            (World.fresh 800 600 fun _ => 32)).world).world.com.refs h = 0 :=
  ⟨rfl,
    resize_sequence_paired debugBuild okInitEnv 800 600 (fun _ => 32)
      [⟨okResize, 1024, 768⟩, ⟨okResize, 640, 480⟩] (by decide) rfl (by decide) (by decide)⟩

/-- C7 as stated fails. After a successful `Initialize`, one `OnResize` to 1024 x 768 whose
`ResizeBuffers` fails returns with `_renderTarget` null, so no view of the requested size is
held; and when a second, successful `OnResize` follows, its `DestroySwapchainResources` runs
on the null view, which the pairing ledger rejects. -/
theorem resize_failure_breaks_pairing :
    (Initialize debugBuild okInitEnv freshWorld).value? = some true ∧
      startedWorld.renderTarget = some 4 ∧
      (resizeAll [⟨{ resizeBuffers := false, swapRes := okSwapRes }, 1024, 768⟩]
        startedWorld).value? = some () ∧
      (resizeAll [⟨{ resizeBuffers := false, swapRes := okSwapRes }, 1024, 768⟩]
        startedWorld).world.renderTarget = none ∧
      viewLedger (resizeAll [⟨{ resizeBuffers := false, swapRes := okSwapRes }, 1024, 768⟩,
        ⟨okResize, 640, 480⟩] startedWorld).world.calls = none := by
  decide

/-! ## Reference counts at shutdown -/

/-- C9 (the code at a failing input). Validation build, successful `Initialize` and `Load`.
When the primary texture loaded, the fallback view is object 10 and the primary view object
12; at `ReportLiveDeviceObjects` the report lists, besides the device (object 1), the
fallback view with two outstanding references and the primary view with one. When the
primary texture is missing, `_textureSrv` aliases the fallback view (three references after
`Load`) and the report lists it with two. In both runs the fallback view still has two
references when the body has released the device, and one after the member destructors. -/
theorem shutdown_leaves_views_referenced :
    loadedWorld.fallbackTextureSrv = some 10 ∧ loadedWorld.textureSrv = some 12 ∧
      (destructorBody debugBuild loadedWorld).value? = some () ∧
      (destructorBody debugBuild loadedWorld).world.liveReport =
        some [(1, 2), (10, 2), (12, 1)] ∧
      (destructorBody debugBuild loadedWorld).world.com.refs 10 = 2 ∧
      (destructor debugBuild loadedWorld).world.com.refs 10 = 1 ∧
      aliasedWorld.fallbackTextureSrv = some 10 ∧ aliasedWorld.textureSrv = some 10 ∧
      aliasedWorld.com.refs 10 = 3 ∧
      (destructorBody debugBuild aliasedWorld).value? = some () ∧
      (destructorBody debugBuild aliasedWorld).world.liveReport = some [(1, 2), (10, 2)] ∧
      (destructorBody debugBuild aliasedWorld).world.com.refs 10 = 2 ∧
      (destructor debugBuild aliasedWorld).world.com.refs 10 = 1 := by
  decide

/-! ## Initialize -/

/-- C10 (the code at a failing input). For a freshly constructed application in which
factory, device, debug interface and swapchain are created but `GetBuffer` (or
`CreateRenderTargetView`) fails inside `CreateSwapchainResources`, `Initialize` returns
`true` with `_renderTarget` null, in validation and production builds alike. -/
theorem Initialize_true_without_render_target :
    (Initialize debugBuild { okInitEnv with swapRes := ⟨false, true⟩ } freshWorld).value? =
        some true ∧
      (Initialize debugBuild { okInitEnv with swapRes := ⟨false, true⟩ }
        freshWorld).world.renderTarget = none ∧
      (Initialize debugBuild { okInitEnv with swapRes := ⟨true, false⟩ } freshWorld).value? =
        some true ∧
      (Initialize debugBuild { okInitEnv with swapRes := ⟨true, false⟩ }
        freshWorld).world.renderTarget = none ∧
      (Initialize releaseBuild { okInitEnv with swapRes := ⟨false, true⟩ } freshWorld).value? =
        some true ∧
      (Initialize releaseBuild { okInitEnv with swapRes := ⟨false, true⟩ }
        freshWorld).world.renderTarget = none ∧
      (CreateSwapchainResources ⟨false, true⟩ startedWorld).value? = some false := by
  decide

/-- `Initialize` returns `false` at the first of the shell, factory and device steps that
fails, and makes no later call. -/
theorem Initialize_stops_at_first_failure (b : Build) (env : InitEnv) (w : World) :
    (env.applicationInitialize = false →
      (Initialize b env w).value? = some false ∧
      (Initialize b env w).world.calls = w.calls ++ [Call.applicationInitialize]) ∧
    (env.applicationInitialize = true → env.createDXGIFactory1 = false →
      (Initialize b env w).value? = some false ∧
      (Initialize b env w).world.calls = w.calls ++
        [ Call.applicationInitialize,
          Call.comReleaseAndGetAddressOf .dxgiFactory w.dxgiFactory,
          Call.createDXGIFactory1 none ]) ∧
    (env.applicationInitialize = true → env.createDXGIFactory1 = true →
      env.d3d11CreateDevice = false →
      (Initialize b env w).value? = some false ∧
      (Initialize b env w).world.calls = w.calls ++
        [ Call.applicationInitialize,
          Call.comReleaseAndGetAddressOf .dxgiFactory w.dxgiFactory,
          Call.createDXGIFactory1 (some w.com.next),
          Call.comReleaseAndGetAddressOf .device w.device,
          Call.d3d11CreateDevice (deviceFlags b) none ]) := by
  refine ⟨fun h1 => ?_, fun h1 h2 => ?_, fun h1 h2 h3 => ?_⟩
  · simp [Initialize, h1, World.emit, Outcome.value?, Outcome.world]
  · simp [Initialize, h1, h2, World.addressOf, World.emit, World.log, World.set, World.get,
      Outcome.value?, Outcome.world]
  · simp [Initialize, h1, h2, h3, World.addressOf, World.created, World.emit, World.log,
      World.set, World.get, Outcome.value?, Outcome.world]

/-- `Initialize` returns `false` when the swapchain cannot be created, and then never calls
`CreateSwapchainResources`: the failed `CreateSwapChainForHwnd` is its last call. -/
theorem Initialize_false_of_swapchain_failure (b : Build) (env : InitEnv) (width height : Int)
    (layout : VertexType → Nat) (h1 : env.applicationInitialize = true)
    (h2 : env.createDXGIFactory1 = true) (h3 : env.d3d11CreateDevice = true)
    (h4 : b.ndebug = false → env.queryDebug = true)
    (h5 : env.createSwapChainForHwnd = false) :
    (Initialize b env (World.fresh width height layout)).value? = some false ∧
      (Initialize b env (World.fresh width height layout)).world.calls.getLast? =
        some (Call.createSwapChainForHwnd 0 1
          (swapChainDescriptor (World.fresh width height layout)) none) ∧
      (Initialize b env (World.fresh width height layout)).world.renderTarget = none := by
  obtain ⟨nd⟩ := b
  cases nd
  · have h4t := h4 rfl
    simp [Initialize, InitializeSwapchain, h1, h2, h3, h4t, h5, World.fresh, World.addressOf,
      World.created, World.emit, World.log, World.set, World.get, Outcome.value?,
      Outcome.world, swapChainDescriptor]
  · simp [Initialize, InitializeSwapchain, h1, h2, h3, h5, World.fresh, World.addressOf,
      World.created, World.emit, World.log, World.set, World.get, Outcome.value?,
      Outcome.world, swapChainDescriptor]

/-- A fully successful `Initialize` of a freshly constructed application creates, in this
order, the factory (object 0), the device with its context (objects 1 and 2), the swapchain
(object 3) and the render-target view (object 4), and all five members are set. -/
theorem Initialize_creation_order (width height : Int) (layout : VertexType → Nat) :
    (Initialize releaseBuild okInitEnv (World.fresh width height layout)).value? = some true ∧
      (Initialize releaseBuild okInitEnv (World.fresh width height layout)).world.calls =
        [ Call.applicationInitialize,
          Call.comReleaseAndGetAddressOf .dxgiFactory none,
          Call.createDXGIFactory1 (some 0),
          Call.comReleaseAndGetAddressOf .device none,
          Call.d3d11CreateDevice 0 (some (1, 2)),
          Call.setPrivateData 1 .DEV_Main,
          Call.setPrivateData 2 .CTX_Main,
          Call.comReleaseAndGetAddressOf .swapChain none,
          Call.createSwapChainForHwnd 0 1
            { width := toUINT width, height := toUINT height, format := .B8G8R8A8_UNORM,
              sampleCount := 1, sampleQuality := 0, bufferCount := 2, windowed := true }
            (some 3),
          Call.getBuffer 3 0 true,
          Call.comReleaseAndGetAddressOf .renderTarget none,
          Call.createRenderTargetView 1 (toUINT width, toUINT height) (some 4),
          Call.freeImageInitialise ] ∧
      (Initialize releaseBuild okInitEnv (World.fresh width height layout)).world.dxgiFactory =
        some 0 ∧
      (Initialize releaseBuild okInitEnv (World.fresh width height layout)).world.device =
        some 1 ∧
      (Initialize releaseBuild okInitEnv
        (World.fresh width height layout)).world.deviceContext = some 2 ∧
      (Initialize releaseBuild okInitEnv (World.fresh width height layout)).world.swapChain =
        some 3 ∧
      (Initialize releaseBuild okInitEnv (World.fresh width height layout)).world.renderTarget =
        some 4 := by
  simp [Initialize, InitializeSwapchain, CreateSwapchainResources, releaseBuild, okInitEnv,
    okSwapRes, deviceFlags, World.fresh, World.addressOf, World.created, World.emit, World.log,
    World.set, World.get, Outcome.value?, Outcome.world, swapChainDescriptor, resizedBuffers,
    ComPtr.InternalRelease, Com.create]

end DX11Engine
